import Mathlib

set_option maxRecDepth 8192

/-!
Verification of the `dismantler` disassembler core (rom_base.py, rom_8080.py,
rom_1802.py, rom_z80.py, util.py) through a shallow embedding.

Modelling conventions:
* Python integers are `Int` (addresses) or `Nat` (ROM bytes, opcode fields).
* Python lists indexed by `idx = address - base_address` are Lean `List`s;
  `lget`/`lset` perform the indexing.  Out-of-range accesses raise
  `IndexError` in Python; in this embedding out-of-range reads give a
  default and out-of-range writes are no-ops, and the theorems below carry
  in-range hypotheses wherever an exact value is claimed.
* Python dicts are association lists in insertion order (`alookup`/`ainsert`),
  matching CPython's preserved insertion order.
* Methods mutating `self` become state-passing functions on `RomState`.
* In `rom_base.__init__` only `rom`, `rom_len`, `base_address`, `max_address`,
  `data_type`, `disassembly`, `comments`, `label_map` and `port_map` are
  assigned.  The remaining attributes (`special_labels`, `special_ports`,
  `xref`, `vector_addrs`, `vector_dests`) are class-level objects shared by
  every instance of a subclass, so `init` takes them as inputs: a fresh
  Python process supplies the class defaults, while a second instance
  constructed in the same process receives the values mutated by the first.
* The recursive traversal `disassemble` is embedded with an explicit fuel
  parameter; `none` models both fuel exhaustion and the `IndexError` the
  source raises for an in-window entry outside the ROM.
* Code paths of `rom_z80.py` that crash at runtime (the `raise` statements
  for DD/FD prefixes, calls to the undefined `self.lookup_a16_intel` /
  `self.lookup_port8_intel` attributes, and the `_bli[y2-4, z2]` tuple
  indexing) are modelled as `none`.
-/

namespace Dismantler

/-- Python-style list read `l[i]` for `0 ≤ i < len l`; otherwise the default. -/
def lget (d : α) (l : List α) (i : Int) : α :=
  if 0 ≤ i then l.getD i.toNat d else d

/-- Python-style list write `l[i] = v`; out-of-range writes are no-ops here. -/
def lset (l : List α) (i : Int) (v : α) : List α :=
  if 0 ≤ i then l.set i.toNat v else l

/-- Dictionary read: first binding of key `k` in an insertion-ordered list. -/
def alookup [DecidableEq κ] (m : List (κ × α)) (k : κ) : Option α :=
  match m with
  | [] => none
  | (k', v) :: rest => if k' = k then some v else alookup rest k

/-- Dictionary write `d[k] = v`: replace in place, or append a new binding. -/
def ainsert [DecidableEq κ] (m : List (κ × α)) (k : κ) (v : α) : List (κ × α) :=
  match m with
  | [] => [(k, v)]
  | (k', v') :: rest => if k' = k then (k', v) :: rest else (k', v') :: ainsert rest k v

/-- Keys of a dictionary in insertion order. -/
def akeys (m : List (κ × α)) : List κ := m.map Prod.fst

/-- A run of `n` space characters. -/
def spaces (n : Nat) : String := String.mk (List.replicate n ' ')

/-- Python `'{:Ns}'.format(s)`: left-justify by padding with spaces, never truncate. -/
def padTo (s : String) (w : Nat) : String := s ++ spaces (w - s.length)

/-- Uppercase hexadecimal digit for `n < 16`. -/
def hexDigit (n : Nat) : Char := if n < 10 then Char.ofNat (48 + n) else Char.ofNat (55 + n)

/-- Accumulate the uppercase hexadecimal digits of `n` (fuel-bounded; `fuel = n+1` suffices). -/
def natHexAux (fuel : Nat) (n : Nat) (acc : List Char) : List Char :=
  match fuel with
  | 0 => acc
  | fuel + 1 => if n = 0 then acc else natHexAux fuel (n / 16) (hexDigit (n % 16) :: acc)

/-- Uppercase hexadecimal rendering of a natural number, Python `'{:X}'.format`. -/
def natHex (n : Nat) : String :=
  if n = 0 then "0" else String.mk (natHexAux (n + 1) n [])

/-- Python `'{:0wX}'.format(n)` for naturals: zero-pad to width `w`, never truncate. -/
def natHexPad (n w : Nat) : String :=
  let s := natHex n
  String.mk (List.replicate (w - s.length) '0') ++ s

/-- Python `'{:0wX}'.format(v)` for ints: a sign counts towards the width. -/
def intHexPad (v : Int) (w : Nat) : String :=
  if v < 0 then "-" ++ natHexPad v.natAbs (w - 1) else natHexPad v.toNat w

namespace util

/-- Models `util.hex8_intel`: two hex digits, trailing `h`, a leading `0`
    inserted before an alphabetic leading digit. -/
def hex8_intel (val : Nat) : String :=
  let valstr := natHexPad val 2 ++ "h"
  if (valstr.toList.headD '0') ∈ ['A', 'B', 'C', 'D', 'E', 'F'] then "0" ++ valstr else valstr

/-- Models `util.hex16_intel`: four hex digits, trailing `h`, a leading `0`
    inserted before an alphabetic leading digit. -/
def hex16_intel (val : Int) : String :=
  let valstr := intHexPad val 4 ++ "h"
  if (valstr.toList.headD '0') ∈ ['A', 'B', 'C', 'D', 'E', 'F'] then "0" ++ valstr else valstr

/-- Models `util.signed_byte`: interpret a byte as a signed 8-bit value. -/
def signed_byte (val : Nat) : Int :=
  let val := val &&& 0xFF
  if val > 0x7F then -((((val ^^^ 0xFF) + 1 : Nat)) : Int) else (val : Int)

end util

namespace rom_base

/-- Classification tags, `rom_base.py` lines 34-36. -/
def type_unknown : Nat := 0

def type_instruction : Nat := 1

def type_operand : Nat := 2

def type_data8 : Nat := 3

def type_data16H : Nat := 4

def type_data16L : Nat := 5

def type_vector16H : Nat := 6

def type_vector16L : Nat := 7

def type_error : Nat := 8

/-- The `data_types` list of `rom_base.py` line 42. -/
def data_types : List Nat :=
  [type_data8, type_data16H, type_data16L, type_vector16H, type_vector16L]

/-- The `type_names` list of `rom_base.py` lines 44-46. -/
def type_names : List String :=
  ["UNKNOWN", "INSTRUCTION", "OPERAND", "DATA8", "DATA16H", "DATA16L",
   "VECTOR16H", "VECTOR16L", "ERROR"]

/-- Python `type_names[t]`. -/
def typeName (t : Nat) : String := type_names.getD t ""

/-- The mutable attributes of a `rom_base` object (and its subclasses). -/
structure RomState where
  rom : List Nat
  base_address : Int
  data_type : List Nat
  disassembly : List String
  comments : List String
  label_map : List (Int × String)
  port_map : List (Nat × String)
  special_labels : List (Int × String)
  special_ports : List (Nat × String)
  xref : List (Int × List Int)
  vector_addrs : List Int
  vector_dests : List Int
deriving Repr, DecidableEq

/-- Python `self.rom_len` (always `len(self.rom)` after `__init__`). -/
def RomState.rom_len (st : RomState) : Int := (st.rom.length : Int)

/-- Python `self.max_address = base_address + rom_len - 1`. -/
def RomState.max_address (st : RomState) : Int := st.base_address + st.rom_len - 1

/-- Models `rom_base.__init__`.  The constructor resets `data_type`,
    `disassembly` and `comments` and stores the caller-supplied maps; the
    `special_labels`, `special_ports`, `xref`, `vector_addrs` and
    `vector_dests` attributes live at class scope in the source and are
    therefore passed through unchanged (empty in a fresh process). -/
def init (rom : List Nat) (base_address : Int) (label_map : List (Int × String))
    (port_map : List (Nat × String)) (special_labels : List (Int × String))
    (special_ports : List (Nat × String)) (xref : List (Int × List Int))
    (vector_addrs vector_dests : List Int) : RomState :=
  { rom := rom
    base_address := base_address
    data_type := List.replicate rom.length type_unknown
    disassembly := List.replicate rom.length ""
    comments := List.replicate rom.length ""
    label_map := label_map
    port_map := port_map
    special_labels := special_labels
    special_ports := special_ports
    xref := xref
    vector_addrs := vector_addrs
    vector_dests := vector_dests }

/-- Python `self.data_type[i] = t`. -/
def setType (st : RomState) (i : Int) (t : Nat) : RomState :=
  { st with data_type := lset st.data_type i t }

/-- Python `self.disassembly[i] = s`. -/
def setDisasm (st : RomState) (i : Int) (s : String) : RomState :=
  { st with disassembly := lset st.disassembly i s }

/-- Python `self.comments[i] += s`. -/
def addComment (st : RomState) (i : Int) (s : String) : RomState :=
  { st with comments := lset st.comments i (lget "" st.comments i ++ s) }

/-- Models `rom_base._set_data8_intel` (lines 90-114): tag a byte DATA8 and,
    on a conflicting prior tag, append a WARNING comment. -/
def set_data8_intel (st : RomState) (address : Int) (access_addr : Option Int) : RomState :=
  let idx := address - st.base_address
  if 0 ≤ idx ∧ idx < st.rom_len then
    let st :=
      if lget type_unknown st.data_type idx ≠ type_unknown ∧
          lget type_unknown st.data_type idx ≠ type_data8 then
        let line :=
          match access_addr with
          | none =>
            "WARNING: Changed type " ++ typeName (lget type_unknown st.data_type idx) ++
              "->" ++ typeName type_data8 ++ ". "
          | some a =>
            "WARNING: Access from " ++ util.hex16_intel a ++ " changed type " ++
              typeName (lget type_unknown st.data_type idx) ++ "->" ++ typeName type_data8 ++ ". "
        addComment st idx line
      else st
    setType st idx type_data8
  else st

/-- Models `rom_base._set_data16_le_intel` (lines 117-154).  On a conflict the
    source formats the WARNING line into the local variable `line` but never
    appends it to `self.comments` (unlike `_set_data8_intel`), so the only
    state change is the pair of `data_type` writes. -/
def set_data16_le_intel (st : RomState) (address : Int) (access_addr : Option Int) : RomState :=
  let _ := access_addr
  let idx := address - st.base_address
  let st :=
    if 0 ≤ idx ∧ idx < st.rom_len then setType st idx type_data16L else st
  let idx := idx + 1
  let st :=
    if 0 ≤ idx ∧ idx < st.rom_len then setType st idx type_data16H else st
  st

/-- Models `rom_base._set_vector16_le_intel` (lines 158-210).  As with
    `_set_data16_le_intel`, the conflict WARNING lines are computed but never
    appended to `self.comments`.  The returned value is `none` (Python `None`)
    unless the low byte was inside the ROM. -/
def set_vector16_le_intel (st : RomState) (address : Int) (access_addr : Option Int) :
    RomState × Option Int :=
  let _ := access_addr
  let idx := address - st.base_address
  let vector : Option Int := none
  let st :=
    if address ∉ st.vector_addrs then
      { st with vector_addrs := st.vector_addrs ++ [address] }
    else st
  let step1 :=
    if 0 ≤ idx ∧ idx < st.rom_len then
      (setType st idx type_vector16L, some ((lget 0 st.rom idx : Nat) : Int))
    else (st, vector)
  let st := step1.1
  let vector := step1.2
  let idx := idx + 1
  let step2 :=
    if 0 ≤ idx ∧ idx < st.rom_len then
      (setType st idx type_vector16H,
        match vector with
        | some v => some (Int.lor v (((lget 0 st.rom idx) <<< 8 : Nat) : Int))
        | none => none)
    else (st, vector)
  let st := step2.1
  let vector := step2.2
  let st :=
    match vector with
    | some v =>
      if v ∉ st.vector_dests then { st with vector_dests := st.vector_dests ++ [v] } else st
    | none => st
  (st, vector)

/-- Models `rom_base._lookup_a16_intel` (lines 471-493). -/
def lookup_a16_intel (st : RomState) (address : Int) (create_label : Bool) (pfx : String) :
    RomState × String :=
  match alookup st.label_map address with
  | some name => (st, name)
  | none =>
    if create_label then
      let label :=
        match alookup st.special_labels address with
        | some l => l
        | none => pfx ++ intHexPad address 4
      ({ st with label_map := ainsert st.label_map address label }, label)
    else (st, util.hex16_intel address)

/-- Models `rom_base._lookup_port8_intel` (lines 495-517). -/
def lookup_port8_intel (st : RomState) (port : Nat) (create_label : Bool) (pfx : String) :
    RomState × String :=
  match alookup st.port_map port with
  | some name => (st, name)
  | none =>
    if create_label then
      let label :=
        match alookup st.special_ports port with
        | some l => l
        | none => pfx ++ natHexPad port 2
      ({ st with port_map := ainsert st.port_map port label }, label)
    else (st, util.hex8_intel port)

/-- Models `rom_base.add_xref` (lines 540-551).  Note that the source guards
    the append with `dest not in self.xref[dest]` - it tests whether the
    DESTINATION is in the per-destination source list, not the source. -/
def add_xref (st : RomState) (source dest : Int) : RomState :=
  match alookup st.xref dest with
  | some lst =>
    if dest ∉ lst then { st with xref := ainsert st.xref dest (lst ++ [source]) } else st
  | none => { st with xref := ainsert st.xref dest [source] }

/-- Python `self.lookup_address(a, False)` as used by the listing renderer:
    `_lookup_a16_intel` with `create_label = False` never mutates the state. -/
def lookup_address_noc (st : RomState) (address : Int) : String :=
  match alookup st.label_map address with
  | some name => name
  | none => util.hex16_intel address

/-- Insert into a list sorted ascending with respect to `le`. -/
def insSorted (le : κ → κ → Bool) (a : κ) : List κ → List κ
  | [] => [a]
  | b :: rest => if le a b then a :: b :: rest else b :: insSorted le a rest

/-- Python `sorted(...)` with respect to the boolean order `le`. -/
def sortBy (le : κ → κ → Bool) (l : List κ) : List κ := l.foldr (insSorted le) []

/-- Decidable `≤` on `Int` as a boolean, for `sorted` over addresses. -/
def intLe (a b : Int) : Bool := a ≤ b

/-- Decidable `≤` on `Nat` as a boolean, for `sorted` over port numbers. -/
def natLe (a b : Nat) : Bool := a ≤ b

/-- Python string comparison: lexicographic over code points. -/
def charListLe : List Char → List Char → Bool
  | [], _ => true
  | _ :: _, [] => false
  | c :: cs, d :: ds =>
    if c.toNat < d.toNat then true
    else if d.toNat < c.toNat then false
    else charListLe cs ds

/-- Python `≤` on strings, used by `sorted` over label strings. -/
def strLe (a b : String) : Bool := charListLe a.toList b.toList

/-- The operand-gathering `while` loop of `_listing_a16_d8_intel`
    (lines 369-373): extend the byte cluster over OPERAND-tagged bytes,
    folding non-empty operand comments into the instruction comment. -/
def gatherOps (st : RomState) : Nat → Nat → Nat → String → String → Nat × String × String
  | 0, _, n, data_str, comment => (n, data_str, comment)
  | fuel + 1, idx, n, data_str, comment =>
    if idx + n < st.data_type.length ∧ st.data_type.getD (idx + n) type_unknown = type_operand then
      let data_str := data_str ++ " " ++ natHexPad (st.rom.getD (idx + n) 0) 2
      let comment :=
        if 0 < (st.comments.getD (idx + n) "").length then
          comment ++ " " ++ st.comments.getD (idx + n) ""
        else comment
      gatherOps st fuel idx (n + 1) data_str comment
    else (n, data_str, comment)

/-- The body of the `while address <= self.max_address` loop of
    `_listing_a16_d8_intel` (lines 357-432), one line per byte cluster.
    `fuel = rom length + 1` is enough since every cluster consumes at least
    one byte. -/
def listingLoop (st : RomState) (source : Bool) (ind : String) :
    Nat → Nat → Nat → String → String
  | 0, _, _, acc => acc
  | fuel + 1, idx, previdx, acc =>
    if (st.base_address + (idx : Int)) ≤ st.max_address then
      let address : Int := st.base_address + (idx : Int)
      let data_str := natHexPad (st.rom.getD idx 0) 2
      let comment := st.comments.getD idx ""
      let label :=
        match alookup st.label_map address with
        | some l => l ++ ":"
        | none => ""
      let dt := st.data_type.getD idx type_unknown
      let (n, data_str, comment, code_str) :=
        if dt = type_instruction then
          let code_str := st.disassembly.getD idx ""
          let (n, data_str, comment) := gatherOps st st.data_type.length idx 1 data_str comment
          (n, data_str, comment, code_str)
        else if dt = type_data8 then
          (1, data_str, comment, "DB   " ++ util.hex8_intel (st.rom.getD idx 0))
        else if dt = type_data16L ∧ st.data_type.getD (idx + 1) type_unknown = type_data16H then
          let word := Nat.lor (st.rom.getD idx 0) ((st.rom.getD (idx + 1) 0) <<< 8)
          (2, data_str, comment ++ " " ++ st.comments.getD (idx + 1) "",
            "DW   " ++ util.hex16_intel (word : Int))
        else if dt = type_vector16L ∧ st.data_type.getD (idx + 1) type_unknown = type_vector16H then
          let word := Nat.lor (st.rom.getD idx 0) ((st.rom.getD (idx + 1) 0) <<< 8)
          (2, data_str, comment ++ " " ++ st.comments.getD (idx + 1) "",
            "DW   " ++ lookup_address_noc st (word : Int))
        else if dt = type_unknown then
          (1, data_str, "(UNREACHABLE) " ++ comment,
            "DB   " ++ util.hex8_intel (st.rom.getD idx 0))
        else
          (1, data_str, comment, "DB   " ++ util.hex8_intel (st.rom.getD idx 0))
      let line :=
        if source then padTo label 17 ++ " " ++ padTo code_str 24 ++ "; " ++ comment ++ "\n"
        else
          intHexPad address 4 ++ "  " ++ padTo data_str 16 ++ "  " ++ padTo label 17 ++ " " ++
            padTo code_str 24 ++ "; " ++ comment ++ "\n"
      let pdt := st.data_type.getD previdx type_unknown
      let line :=
        if (akeys st.xref).contains address then "\n" ++ line
        else if st.vector_dests.contains address then "\n" ++ line
        else if dt = type_unknown ∧ pdt ≠ type_unknown then "\n" ++ line
        else if dt ≠ type_unknown ∧ pdt = type_unknown then "\n" ++ line
        else if dt ∈ data_types ∧ pdt ∉ data_types then "\n" ++ line
        else if dt ∉ data_types ∧ pdt ∈ data_types then "\n" ++ line
        else line
      listingLoop st source ind fuel (idx + n) idx (acc ++ line)
    else acc

/-- Models `rom_base._listing_a16_d8_intel` (lines 317-459): external
    references, IO port map, `ORG` directive, one line per byte cluster,
    `END`, and (in listing mode) the sorted cross-reference summary. -/
def listing_a16_d8_intel (st : RomState) (source : Bool) : String :=
  let indentation := if source then "" else spaces 24
  let listing_str := "" ++ indentation ++ "; External References:\n\n"
  let listing_str :=
    (sortBy intLe (akeys st.label_map)).foldl
      (fun acc address =>
        if address < st.base_address ∨ address > st.max_address then
          acc ++ indentation ++ padTo ((alookup st.label_map address).getD "") 16 ++
            "  EQU  " ++ util.hex16_intel address ++ "\n"
        else acc)
      listing_str
  let listing_str := listing_str ++ "\n" ++ indentation ++ "; IO Port Map:\n\n"
  let listing_str :=
    (sortBy natLe (akeys st.port_map)).foldl
      (fun acc port =>
        acc ++ indentation ++ padTo ((alookup st.port_map port).getD "") 16 ++
          "  EQU  " ++ util.hex8_intel port ++ "\n")
      listing_str
  let listing_str := listing_str ++ "\n" ++ indentation ++ "; ROM Disassembly:\n\n"
  let listing_str :=
    listing_str ++ "\n" ++ indentation ++ spaces 18 ++ "ORG  " ++
      util.hex16_intel st.base_address ++ "\n\n"
  let listing_str := listingLoop st source indentation (st.rom.length + 1) 0 0 listing_str
  let listing_str := listing_str ++ "\n" ++ indentation ++ spaces 18 ++ "END\n\n"
  if source then listing_str
  else
    let listing_str := listing_str ++ indentation ++ "; Cross-Reference List:\n"
    let listing_str :=
      listing_str ++ indentation ++
        "; (Does not include calls via computed addresses or vectors)\n\n"
    let dest_list :=
      (akeys st.xref).foldl
        (fun m dest => ainsert m (lookup_address_noc st dest) dest)
        ([] : List (String × Int))
    (sortBy strLe (akeys dest_list)).foldl
      (fun acc dest_str =>
        let dest := (alookup dest_list dest_str).getD 0
        let source_list := ((alookup st.xref dest).getD []).map (lookup_address_noc st)
        let acc := acc ++ indentation ++ "; " ++ padTo (dest_str ++ ":") 17
        let acc := (sortBy strLe source_list).foldl (fun a s => a ++ " " ++ s) acc
        acc ++ "\n")
      listing_str

end rom_base

namespace rom_8080

open rom_base

/-- The `_alu` table of `rom_8080.py` (note the trailing space in `SUB `). -/
def alu : List String := ["ADD", "ADC", "SUB ", "SBC", "ANA", "XRA", "ORA", "CMP"]

/-- The `_alui` table of `rom_8080.py` (note the trailing space in `SUI `). -/
def alui : List String := ["ADI", "ACI", "SUI ", "SBI", "ANI", "XRI", "ORI", "CPI"]

/-- The `_cc` condition table. -/
def cc : List String := ["NZ", "Z", "NC", "C", "PO", "PE", "P", "M"]

/-- The `_r` register table. -/
def r : List String := ["B", "C", "D", "E", "H", "L", "M", "A"]

/-- The `_rp` register-pair table. -/
def rp : List String := ["B", "D", "H", "SP"]

/-- The `_rp2` register-pair table. -/
def rp2 : List String := ["B", "D", "H", "PSW"]

/-- The module-level `default_labels` map of `rom_8080.py`. -/
def default_labels : List (Int × String) :=
  [(0x0000, "RST0"), (0x0008, "RST1"), (0x0010, "RST2"), (0x0018, "RST3"),
   (0x0020, "RST4"), (0x0028, "RST5"), (0x0030, "RST6"), (0x0038, "RST7")]

/-- The module-level `default_entries` list of `rom_8080.py`. -/
def default_entries : List Int := [0x00, 0x08, 0x10, 0x18, 0x20, 0x28, 0x30, 0x38]

/-- The opcode dispatch of `rom_8080.disasm_single` (lines 145-384), applied
    to the state produced by the classification preamble (the location already
    retagged INSTRUCTION).  Returns the updated state and the `next_addrs`
    successor list. -/
def disasm_dispatch (st : RomState) (address : Int) (create_label : Bool) :
    RomState × List Int :=
  let idx := address - st.base_address
  let opcode := lget 0 st.rom idx
  let x := (opcode >>> 6) &&& 0x03
    let y := (opcode >>> 3) &&& 0x07
    let z := opcode &&& 0x07
    let p := y >>> 1
    let q := y &&& 0x01
    if x = 0 then
      if z = 0 then
        -- Relative jumps and assorted ops
        if y = 0 then (setDisasm st idx "NOP", [address + 1])
        else
          let st := addComment st idx ("ERROR: invalid opcode " ++ util.hex8_intel opcode ++ " ")
          (setType st idx type_error, [address + 1])
      else if z = 1 then
        -- 16-bit load immediate/add
        if q = 0 then
          let word := Nat.lor (lget 0 st.rom (idx + 1)) ((lget 0 st.rom (idx + 2)) <<< 8)
          let st := setType st (idx + 1) type_operand
          let st := setType st (idx + 2) type_operand
          (setDisasm st idx ("LXI  " ++ rp.getD p "" ++ ", " ++ util.hex16_intel (word : Int)),
            [address + 3])
        else (setDisasm st idx ("DAD  " ++ rp.getD p ""), [address + 1])
      else if z = 2 then
        -- Indirect loading
        if q = 0 then
          if p ≤ 1 then (setDisasm st idx ("STAX " ++ rp.getD p ""), [address + 1])
          else if p = 2 then
            let word := Nat.lor (lget 0 st.rom (idx + 1)) ((lget 0 st.rom (idx + 2)) <<< 8)
            let st := setType st (idx + 1) type_operand
            let st := setType st (idx + 2) type_operand
            let lres := lookup_a16_intel st (word : Int) create_label "D_"
            let st := lres.1
            let name := lres.2
            let st := setDisasm st idx ("SHLD " ++ name)
            let st := set_data16_le_intel st (word : Int) (some address)
            (st, [address + 3])
          else
            let word := Nat.lor (lget 0 st.rom (idx + 1)) ((lget 0 st.rom (idx + 2)) <<< 8)
            let st := setType st (idx + 1) type_operand
            let st := setType st (idx + 2) type_operand
            let lres := lookup_a16_intel st (word : Int) create_label "D_"
            let st := lres.1
            let name := lres.2
            let st := setDisasm st idx ("STA  " ++ name)
            let st := set_data8_intel st (word : Int) (some address)
            (st, [address + 3])
        else
          if p ≤ 1 then (setDisasm st idx ("LDAX " ++ rp.getD p ""), [address + 1])
          else if p = 2 then
            let word := Nat.lor (lget 0 st.rom (idx + 1)) ((lget 0 st.rom (idx + 2)) <<< 8)
            let st := setType st (idx + 1) type_operand
            let st := setType st (idx + 2) type_operand
            let lres := lookup_a16_intel st (word : Int) create_label "D_"
            let st := lres.1
            let name := lres.2
            let st := setDisasm st idx ("LHLD " ++ name)
            let st := set_data16_le_intel st (word : Int) (some address)
            (st, [address + 3])
          else
            let word := Nat.lor (lget 0 st.rom (idx + 1)) ((lget 0 st.rom (idx + 2)) <<< 8)
            let st := setType st (idx + 1) type_operand
            let st := setType st (idx + 2) type_operand
            let lres := lookup_a16_intel st (word : Int) create_label "D_"
            let st := lres.1
            let name := lres.2
            let st := setDisasm st idx ("LDA  " ++ name)
            let st := set_data8_intel st (word : Int) (some address)
            (st, [address + 3])
      else if z = 3 then
        -- 16-bit INC/DEC
        if q = 0 then (setDisasm st idx ("INX  " ++ rp.getD p ""), [address + 1])
        else (setDisasm st idx ("DCX  " ++ rp.getD p ""), [address + 1])
      else if z = 4 then (setDisasm st idx ("INR  " ++ r.getD y ""), [address + 1])
      else if z = 5 then (setDisasm st idx ("DCR  " ++ r.getD y ""), [address + 1])
      else if z = 6 then
        -- 8-bit load immediate
        let st := setType st (idx + 1) type_operand
        (setDisasm st idx
            ("MVI  " ++ r.getD y "" ++ ", " ++ util.hex8_intel (lget 0 st.rom (idx + 1))),
          [address + 2])
      else
        -- z = 7: assorted operations on accumulator/flags
        let s :=
          if y = 0 then "RLC" else if y = 1 then "RRC" else if y = 2 then "RAL"
          else if y = 3 then "RAR" else if y = 4 then "DAA" else if y = 5 then "CMA"
          else if y = 6 then "STC" else "CMC"
        (setDisasm st idx s, [address + 1])
    else if x = 1 then
      if z = 6 ∧ y = 6 then (setDisasm st idx "HLT", [address + 1])
      else (setDisasm st idx ("MOV  " ++ r.getD y "" ++ ", " ++ r.getD z ""), [address + 1])
    else if x = 2 then
      (setDisasm st idx (padTo (alu.getD y "") 4 ++ " " ++ r.getD z ""), [address + 1])
    else
      -- x = 3
      if z = 0 then (setDisasm st idx ("R" ++ cc.getD y ""), [address + 1])
      else if z = 1 then
        if q = 0 then (setDisasm st idx ("POP  " ++ rp2.getD p ""), [address + 1])
        else
          if p = 0 then (setDisasm st idx "RET", [])
          else if p = 1 then
            let st := addComment st idx ("ERROR: invalid opcode " ++ util.hex8_intel opcode ++ " ")
            (setType st idx type_error, [])
          else if p = 2 then (setDisasm st idx "PCHL", [])
          else (setDisasm st idx "SPHL", [address + 1])
      else if z = 2 then
        -- Conditional jump
        let word := Nat.lor (lget 0 st.rom (idx + 1)) ((lget 0 st.rom (idx + 2)) <<< 8)
        let st := setType st (idx + 1) type_operand
        let st := setType st (idx + 2) type_operand
        let lres := lookup_a16_intel st (word : Int) create_label "J_"
        let st := lres.1
        let name := lres.2
        let st := setDisasm st idx ("J" ++ padTo (cc.getD y "") 2 ++ "  " ++ name)
        let st := add_xref st address (word : Int)
        (st, [address + 3, (word : Int)])
      else if z = 3 then
        if y = 0 then
          let word := Nat.lor (lget 0 st.rom (idx + 1)) ((lget 0 st.rom (idx + 2)) <<< 8)
          let st := setType st (idx + 1) type_operand
          let st := setType st (idx + 2) type_operand
          let lres := lookup_a16_intel st (word : Int) create_label "J_"
          let st := lres.1
          let name := lres.2
          (setDisasm st idx ("JMP  " ++ name), [(word : Int)])
        else if y = 1 then
          let st := addComment st idx ("ERROR: invalid opcode " ++ util.hex8_intel opcode ++ " ")
          (setType st idx type_error, [])
        else if y = 2 then
          let st := setType st (idx + 1) type_operand
          let pres := lookup_port8_intel st (lget 0 st.rom (idx + 1)) create_label "P_"
          let st := pres.1
          let name := pres.2
          (setDisasm st idx ("OUT  " ++ name), [address + 2])
        else if y = 3 then
          let st := setType st (idx + 1) type_operand
          let pres := lookup_port8_intel st (lget 0 st.rom (idx + 1)) create_label "P_"
          let st := pres.1
          let name := pres.2
          (setDisasm st idx ("IN   " ++ name), [address + 2])
        else if y = 4 then (setDisasm st idx "XTHL", [address + 1])
        else if y = 5 then (setDisasm st idx "XCHG", [address + 1])
        else if y = 6 then (setDisasm st idx "DI", [address + 1])
        else (setDisasm st idx "EI", [address + 1])
      else if z = 4 then
        -- Conditional call
        let word := Nat.lor (lget 0 st.rom (idx + 1)) ((lget 0 st.rom (idx + 2)) <<< 8)
        let st := setType st (idx + 1) type_operand
        let st := setType st (idx + 2) type_operand
        let lres := lookup_a16_intel st (word : Int) create_label "C_"
        let st := lres.1
        let name := lres.2
        let st := setDisasm st idx ("C" ++ padTo (cc.getD y "") 2 ++ "  " ++ name)
        let st := add_xref st address (word : Int)
        (st, [address + 3, (word : Int)])
      else if z = 5 then
        if q = 0 then (setDisasm st idx ("PUSH " ++ rp2.getD p ""), [address + 1])
        else
          if p = 0 then
            let word := Nat.lor (lget 0 st.rom (idx + 1)) ((lget 0 st.rom (idx + 2)) <<< 8)
            let st := setType st (idx + 1) type_operand
            let st := setType st (idx + 2) type_operand
            let lres := lookup_a16_intel st (word : Int) create_label "C_"
            let st := lres.1
            let name := lres.2
            let st := setDisasm st idx ("CALL " ++ name)
            let st := add_xref st address (word : Int)
            (st, [address + 3, (word : Int)])
          else
            let st := addComment st idx ("ERROR: invalid opcode " ++ util.hex8_intel opcode ++ " ")
            (setType st idx type_error, [])
      else if z = 6 then
        let st := setType st (idx + 1) type_operand
        (setDisasm st idx
            (padTo (alui.getD y "") 4 ++ " " ++ util.hex8_intel (lget 0 st.rom (idx + 1))),
          [address + 2])
      else
        -- z = 7: restart
        let st := setDisasm st idx ("RST  " ++ toString y)
        let st := add_xref st address ((y * 8 : Nat) : Int)
        (st, [((y * 8 : Nat) : Int)])

/-- Models `rom_8080.disasm_single` (lines 113-384): the classification
    preamble (lines 124-146), then `disasm_dispatch`. -/
def disasm_single (st : RomState) (address : Int) (create_label : Bool) : RomState × List Int :=
  let idx := address - st.base_address
  if lget type_unknown st.data_type idx = type_instruction then (st, [])
  else
    let st :=
      if lget type_unknown st.data_type idx = type_operand then
        addComment st idx "WARNING: Disassembling an operand. "
      else st
    let st :=
      if lget type_unknown st.data_type idx ∈ data_types then
        addComment st idx "WARNING: Disassembling data. "
      else st
    let st :=
      if lget type_unknown st.data_type idx = type_error then
        addComment st idx "WARNING: Disassembling location flagged as error. "
      else st
    let st := setType st idx type_instruction
    disasm_dispatch st address create_label

/-- The `for entry in ...` loop of `rom_base.disassemble` (lines 305-314),
    specialised to the 8080 decoder, with explicit fuel.  `none` models fuel
    exhaustion or the `IndexError` raised for an in-window entry outside the
    ROM. -/
def disassembleF (fuel : Nat) (st : RomState) (entries : List Int) (create_labels : Bool)
    (single_step : Bool) (valid_min valid_max : Int) (breakpoints : List Int) :
    Option RomState :=
  match fuel with
  | 0 => none
  | fuel + 1 =>
    match entries with
    | [] => some st
    | entry :: rest =>
      if entry ≥ valid_min ∧ entry ≤ valid_max ∧ entry ∉ breakpoints then
        if entry < st.base_address ∨ entry > st.max_address then none
        else
          let dres := disasm_single st entry create_labels
          let st := dres.1
          let next_addr_list := dres.2
          let inner :=
            if ¬ single_step then
              disassembleF fuel st next_addr_list create_labels false valid_min valid_max
                breakpoints
            else some st
          match inner with
          | none => none
          | some st =>
            disassembleF fuel st rest create_labels single_step valid_min valid_max breakpoints
      else disassembleF fuel st rest create_labels single_step valid_min valid_max breakpoints

/-- Models `rom_base.disassemble` (lines 262-314) for the 8080 decoder:
    resolve the valid range, process the `vectors` list through `set_vector`
    (creating `V_` labels when requested), then run the entry loop over
    `entries ++ vecptrs`.  A vector whose pointer could not be read yields
    Python `None`; with label creation enabled the source would crash
    formatting it (`none` here), and without label creation the `None` entry
    fails the `entry >= valid_min` comparison and is skipped, which the
    `filterMap id` reproduces. -/
def disassemble (fuel : Nat) (st : RomState) (entries : List Int)
    (create_labels single_step : Bool) (valid_range : Option (Int × Int))
    (breakpoints vectors : List Int) : Option RomState :=
  let valid_min := match valid_range with | some vr => vr.1 | none => st.base_address
  let valid_max := match valid_range with | some vr => vr.2 | none => st.max_address
  let vec :=
    vectors.foldl
      (fun acc vector =>
        match acc with
        | none => none
        | some (st, vecptrs) =>
          let vres := set_vector16_le_intel st vector none
          let st := vres.1
          let ptr := vres.2
          if create_labels then
            match ptr with
            | some pv => some ((lookup_a16_intel st pv true "V_").1, vecptrs ++ [some pv])
            | none => none
          else some (st, vecptrs ++ [ptr]))
      (some (st, ([] : List (Option Int))))
  match vec with
  | none => none
  | some (st, vecptrs) =>
    disassembleF fuel st (entries ++ vecptrs.filterMap id) create_labels single_step
      valid_min valid_max breakpoints

/-- Models `rom_8080.listing`: delegate to `_listing_a16_d8_intel`. -/
def listing (st : RomState) (source : Bool) : String := listing_a16_d8_intel st source

end rom_8080

namespace rom_1802

open rom_base

/-- The `_op3x` table of `rom_1802.py`. -/
def op3x : List String :=
  ["BR", "BQ", "BZ", "BDF", "B1", "B2", "B3", "B4",
   "SKP", "BNQ", "BNZ", "BNF", "BN1", "BN2", "BN3", "BN4"]

/-- The `_op7x` table of `rom_1802.py`. -/
def op7x : List String :=
  ["RET", "DIS", "LDXA", "STXD", "ADC", "SDB", "SHRC", "SMB",
   "SAV", "MARK", "SEQ", "REQ", "ADDI", "SDBI", "SHLC", "SMBI"]

/-- The `_opCx` table of `rom_1802.py`. -/
def opCx : List String :=
  ["LBR", "LBQ", "LBZ", "LBDF", "NOP", "LSNQ", "LSNZ", "LSNF",
   "LSKP", "LBNQ", "LBNZ", "LBNF", "LSIE", "LSQ", "LSZ", "LSDF"]

/-- The `_opFx` table of `rom_1802.py`. -/
def opFx : List String :=
  ["LDX", "OR", "AND", "XOR", "ADD", "SD", "SHR", "SM",
   "LDI", "ORI", "ANI", "XRI", "ADI", "SDI", "SHL", "SMI"]

/-- The module-level `default_labels` map of `rom_1802.py`. -/
def default_labels : List (Int × String) := [(0x0000, "RESET")]

/-- The module-level `default_entries` list of `rom_1802.py`. -/
def default_entries : List Int := [0x0000]

/-- The opcode dispatch of `rom_1802.disasm_single` (lines 149-298), applied
    to the state produced by the classification preamble. -/
def disasm_dispatch (st : RomState) (address : Int) (create_label : Bool) :
    RomState × List Int :=
  let idx := address - st.base_address
  let opcode := lget 0 st.rom idx
  let I := (opcode >>> 4) &&& 0x0F
    let N := opcode &&& 0x0F
    if I = 0x0 then
      (if N = 0x0 then setDisasm st idx "IDL"
       else setDisasm st idx ("LDN  R" ++ natHex N), [address + 1])
    else if I = 0x1 then (setDisasm st idx ("INC  R" ++ natHex N), [address + 1])
    else if I = 0x2 then (setDisasm st idx ("DEC  R" ++ natHex N), [address + 1])
    else if I = 0x3 then
      -- Branch target will be offset in same page as target operand
      let page := Int.land (address + 1) 0xFF00
      let offset := lget 0 st.rom (idx + 1)
      let target := Int.lor page (offset : Int)
      if N = 0x0 then
        -- Unconditional branch
        let (st, name) := lookup_a16_intel st target create_label "J_"
        let st := setDisasm st idx (padTo (op3x.getD N "") 4 ++ " " ++ name)
        let st := setType st (idx + 1) type_operand
        (st, [target])
      else if N = 0x8 then (setDisasm st idx (op3x.getD N ""), [address + 2])
      else
        -- Conditional branch
        let (st, name) := lookup_a16_intel st target create_label "J_"
        let st := setDisasm st idx (padTo (op3x.getD N "") 4 ++ " " ++ name)
        let st := setType st (idx + 1) type_operand
        (st, [address + 2, target])
    else if I = 0x4 then (setDisasm st idx ("LDA  R" ++ natHex N), [address + 1])
    else if I = 0x5 then (setDisasm st idx ("STR  R" ++ natHex N), [address + 1])
    else if I = 0x6 then
      if N = 0x0 then (setDisasm st idx "IRX", [address + 1])
      else if N ≤ 0x7 then
        let (st, name) := lookup_port8_intel st N create_label "P_"
        (setDisasm st idx ("OUT  " ++ name), [address + 1])
      else if N = 0x8 then
        let st := setType st idx type_error
        let st := addComment st idx "ERROR: Reserved Opcode "
        (st, [])
      else
        let (st, name) := lookup_port8_intel st (N &&& 0x7) create_label "P_"
        (setDisasm st idx ("INP  " ++ name), [address + 1])
    else if I = 0x7 then
      if N ≤ 0xB ∨ N = 0xE then (setDisasm st idx (op7x.getD N ""), [address + 1])
      else
        let st :=
          setDisasm st idx
            (padTo (op7x.getD N "") 4 ++ " " ++ util.hex8_intel (lget 0 st.rom (idx + 1)))
        let st := setType st (idx + 1) type_operand
        (st, [address + 2])
    else if I = 0x8 then (setDisasm st idx ("GLO  R" ++ natHex N), [address + 1])
    else if I = 0x9 then (setDisasm st idx ("GHI  R" ++ natHex N), [address + 1])
    else if I = 0xA then (setDisasm st idx ("PLO  R" ++ natHex N), [address + 1])
    else if I = 0xB then (setDisasm st idx ("PHI  R" ++ natHex N), [address + 1])
    else if I = 0xC then
      if N = 0 then
        -- Unconditional long branch
        let st := setType st (idx + 1) type_operand
        let st := setType st (idx + 2) type_operand
        let target := Nat.lor ((lget 0 st.rom (idx + 1)) <<< 8) (lget 0 st.rom (idx + 2))
        let (st, name) := lookup_a16_intel st (target : Int) create_label "J_"
        (setDisasm st idx (padTo (opCx.getD N "") 4 ++ " " ++ name), [(target : Int)])
      else if N ≤ 0x3 then
        -- Conditional long branch
        let st := setType st (idx + 1) type_operand
        let st := setType st (idx + 2) type_operand
        let target := Nat.lor ((lget 0 st.rom (idx + 1)) <<< 8) (lget 0 st.rom (idx + 2))
        let (st, name) := lookup_a16_intel st (target : Int) create_label "J_"
        (setDisasm st idx (padTo (opCx.getD N "") 4 ++ " " ++ name),
          [address + 3, (target : Int)])
      else if N = 0x4 then (setDisasm st idx (opCx.getD N ""), [address + 1])
      else if N ≤ 0x7 then (setDisasm st idx (opCx.getD N ""), [address + 3, address + 1])
      else if N = 0x8 then (setDisasm st idx (opCx.getD N ""), [address + 3])
      else if N ≤ 0xB then
        -- Conditional long branch
        let st := setType st (idx + 1) type_operand
        let st := setType st (idx + 2) type_operand
        let target := Nat.lor ((lget 0 st.rom (idx + 1)) <<< 8) (lget 0 st.rom (idx + 2))
        let (st, name) := lookup_a16_intel st (target : Int) create_label "J_"
        (setDisasm st idx (padTo (opCx.getD N "") 4 ++ " " ++ name),
          [address + 3, (target : Int)])
      else (setDisasm st idx (opCx.getD N ""), [address + 3, address + 1])
    else if I = 0xD then
      -- SEP Rn: next execution address depends on register contents
      (setDisasm st idx ("SEP  R" ++ natHex N), [])
    else if I = 0xE then (setDisasm st idx ("SEX  R" ++ natHex N), [address + 1])
    else
      -- I = 0xF
      if N ≤ 0x7 ∨ N = 0xE then (setDisasm st idx (opFx.getD N ""), [address + 1])
      else
        let st :=
          setDisasm st idx
            (padTo (opFx.getD N "") 4 ++ " " ++ util.hex8_intel (lget 0 st.rom (idx + 1)))
        let st := setType st (idx + 1) type_operand
        (st, [address + 2])

/-- Models `rom_1802.disasm_single` (lines 117-298): the classification
    preamble (lines 128-150), then `disasm_dispatch`. -/
def disasm_single (st : RomState) (address : Int) (create_label : Bool) : RomState × List Int :=
  let idx := address - st.base_address
  if lget type_unknown st.data_type idx = type_instruction then (st, [])
  else
    let st :=
      if lget type_unknown st.data_type idx = type_operand then
        addComment st idx "WARNING: Disassembling an operand. "
      else st
    let st :=
      if lget type_unknown st.data_type idx ∈ data_types then
        addComment st idx "WARNING: Disassembling data. "
      else st
    let st :=
      if lget type_unknown st.data_type idx = type_error then
        addComment st idx "WARNING: Disassembling location flagged as error. "
      else st
    let st := setType st idx type_instruction
    disasm_dispatch st address create_label

end rom_1802

namespace rom_z80

open rom_base

/-- The `_alu` table of `rom_z80.py` (spacing and commas as in the source). -/
def alu : List String :=
  ["ADD  A, ", "ADC  A, ", "SUB  ", "SBC  A, ", "AND  ", "XOR  ", "OR   ", "CP   "]

/-- The `_cc` condition table of `rom_z80.py`. -/
def cc : List String := ["NZ", "Z", "NC", "C", "PO", "PE", "P", "M"]

/-- The `_im` interrupt-mode table of `rom_z80.py`. -/
def im : List String := ["0", "0/1", "1", "2", "0", "0/1", "1", "2"]

/-- The `_r` register table of `rom_z80.py`. -/
def r : List String := ["B", "C", "D", "E", "H", "L", "(HL)", "A"]

/-- The `_rot` rotate/shift table of `rom_z80.py`. -/
def rot : List String := ["RLC", "RRC", "RL", "RR", "SLA", "SRA", "SLL", "SRL"]

/-- The `_rp` register-pair table of `rom_z80.py`. -/
def rp : List String := ["BC", "DE", "HL", "SP"]

/-- The `_rp2` register-pair table of `rom_z80.py`. -/
def rp2 : List String := ["BC", "DE", "HL", "AF"]

/-- The module-level `default_labels` map of `rom_z80.py`. -/
def default_labels : List (Int × String) :=
  [(0x0000, "RST00"), (0x0008, "RST08"), (0x0010, "RST10"), (0x0018, "RST18"),
   (0x0020, "RST20"), (0x0028, "RST28"), (0x0030, "RST30"), (0x0038, "RST38"),
   (0x0066, "NMI")]

/-- The module-level `default_entries` list of `rom_z80.py`. -/
def default_entries : List Int := [0x00, 0x08, 0x10, 0x18, 0x20, 0x28, 0x30, 0x38, 0x66]

/-- The string `EX   AF, AF'` (built here to keep the quote character out of
    the literal). -/
def exAfString : String := String.push "EX   AF, AF" (Char.ofNat 39)

/-- Models `rom_z80.disasm_single` (lines 99-494).  `none` marks the code
    paths on which the source raises at runtime: the `DJNZ`/`JR`/`JP`/`CALL`
    and absolute-load branches call `self.lookup_a16_intel`, and the
    `OUT`/`IN` branches call `self.lookup_port8_intel`, neither of which the
    class defines (`AttributeError` - the base-class methods carry a leading
    underscore); the DD/FD prefixes `raise`; and the ED block-instruction
    branch indexes `_bli` with a tuple (`TypeError`). -/
def disasm_single (st : RomState) (address : Int) (create_label : Bool) :
    Option (RomState × List Int) :=
  let _ := create_label
  let idx := address - st.base_address
  if lget type_unknown st.data_type idx = type_instruction then some (st, [])
  else
    let st :=
      if lget type_unknown st.data_type idx = type_operand then
        addComment st idx "WARNING: Disassembling an operand. "
      else st
    let st :=
      if lget type_unknown st.data_type idx ∈ data_types then
        addComment st idx "WARNING: Disassembling data. "
      else st
    let st :=
      if lget type_unknown st.data_type idx = type_error then
        addComment st idx "WARNING: Disassembling location flagged as error. "
      else st
    let st := setType st idx type_instruction
    let opcode := lget 0 st.rom idx
    let x := (opcode >>> 6) &&& 0x03
    let y := (opcode >>> 3) &&& 0x07
    let z := opcode &&& 0x07
    let p := y >>> 1
    let q := y &&& 0x01
    if x = 0 then
      if z = 0 then
        if y = 0 then some (setDisasm st idx "NOP", [address + 1])
        else if y = 1 then some (setDisasm st idx exAfString, [address + 1])
        else none
      else if z = 1 then
        if q = 0 then
          let word := Nat.lor (lget 0 st.rom (idx + 1)) ((lget 0 st.rom (idx + 2)) <<< 8)
          let st := setType st (idx + 1) type_operand
          let st := setType st (idx + 2) type_operand
          some (setDisasm st idx
              ("LD   " ++ rp.getD p "" ++ ", " ++ util.hex16_intel (word : Int)),
            [address + 3])
        else some (setDisasm st idx ("ADD  HL, " ++ rp.getD p ""), [address + 1])
      else if z = 2 then
        if q = 0 then
          if p ≤ 1 then
            some (setDisasm st idx ("LD   (" ++ rp.getD p "" ++ "), A"), [address + 1])
          else none
        else
          if p ≤ 1 then
            some (setDisasm st idx ("LD   A, (" ++ rp.getD p "" ++ ")"), [address + 1])
          else none
      else if z = 3 then
        if q = 0 then some (setDisasm st idx ("INC  " ++ rp.getD p ""), [address + 1])
        else some (setDisasm st idx ("DEC  " ++ rp.getD p ""), [address + 1])
      else if z = 4 then some (setDisasm st idx ("INC  " ++ r.getD y ""), [address + 1])
      else if z = 5 then some (setDisasm st idx ("DEC  " ++ r.getD y ""), [address + 1])
      else if z = 6 then
        let st := setType st (idx + 1) type_operand
        some (setDisasm st idx
            ("LD   " ++ r.getD y "" ++ ", " ++ util.hex8_intel (lget 0 st.rom (idx + 1))),
          [address + 2])
      else
        -- z = 7
        let s :=
          if y = 0 then "RLCA" else if y = 1 then "RRCA" else if y = 2 then "RLA"
          else if y = 3 then "RRA" else if y = 4 then "DAA" else if y = 5 then "CPL"
          else if y = 6 then "SCF" else "CCF"
        some (setDisasm st idx s, [address + 1])
    else if x = 1 then
      if z = 6 ∧ y = 6 then some (setDisasm st idx "HALT", [address + 1])
      else
        some (setDisasm st idx ("LD   " ++ r.getD y "" ++ ", " ++ r.getD z ""), [address + 1])
    else if x = 2 then
      some (setDisasm st idx (alu.getD y "" ++ r.getD z ""), [address + 1])
    else
      -- x = 3
      if z = 0 then some (setDisasm st idx ("RET  " ++ cc.getD y ""), [address + 1])
      else if z = 1 then
        if q = 0 then some (setDisasm st idx ("POP  " ++ rp2.getD p ""), [address + 1])
        else
          if p = 0 then some (setDisasm st idx "RET", [])
          else if p = 1 then some (setDisasm st idx "EXX", [address + 1])
          else if p = 2 then some (setDisasm st idx "JP   HL", [])
          else some (setDisasm st idx "LD   SP, HL", [address + 1])
      else if z = 2 then none
      else if z = 3 then
        if y = 0 then none
        else if y = 1 then
          -- CB prefix
          let opcode2 := lget 0 st.rom (idx + 1)
          let x2 := (opcode2 >>> 6) &&& 0x03
          let y2 := (opcode2 >>> 3) &&& 0x07
          let z2 := opcode2 &&& 0x07
          let st := setType st (idx + 1) type_operand
          let st :=
            if x2 = 0 then
              setDisasm st idx (padTo (rot.getD y2 "") 4 ++ " " ++ r.getD z2 "")
            else if x2 = 1 then
              -- the bit index rendered is the OUTER opcode's y field
              setDisasm st idx ("BIT  " ++ toString y ++ ", " ++ r.getD z2 "")
            else if x2 = 2 then
              setDisasm st idx ("RES  " ++ toString y ++ ", " ++ r.getD z2 "")
            else setDisasm st idx ("SET  " ++ toString y ++ ", " ++ r.getD z2 "")
          some (st, [address + 2])
        else if y = 2 then none
        else if y = 3 then none
        else if y = 4 then some (setDisasm st idx "EX   (SP), HL", [address + 1])
        else if y = 5 then some (setDisasm st idx "EX   DE, HL", [address + 1])
        else if y = 6 then some (setDisasm st idx "DI", [address + 1])
        else some (setDisasm st idx "EI", [address + 1])
      else if z = 4 then none
      else if z = 5 then
        if q = 0 then some (setDisasm st idx ("PUSH " ++ rp2.getD p ""), [address + 1])
        else
          if p = 0 then none
          else if p = 1 then none
          else if p = 2 then
            -- ED prefix
            let opcode2 := lget 0 st.rom (idx + 1)
            let x2 := (opcode2 >>> 6) &&& 0x03
            let y2 := (opcode2 >>> 3) &&& 0x07
            let z2 := opcode2 &&& 0x07
            let p2 := y2 >>> 1
            let q2 := y2 &&& 0x01
            let st := setType st (idx + 1) type_operand
            if x2 = 0 ∨ x2 = 3 then
              let st :=
                addComment st idx
                  ("ERROR: invalid opcode ED" ++ util.hex8_intel opcode2 ++ " ")
              let st :=
                { st with comments := lset st.comments (idx + 1) (lget "" st.comments idx) }
              let st := setType st idx type_error
              let st := setType st (idx + 1) type_error
              some (st, [address + 2])
            else if x2 = 1 then
              if z2 = 0 then
                (if y2 = 6 then some (setDisasm st idx "IN   (C)", [address + 2])
                 else
                   some (setDisasm st idx ("IN   " ++ r.getD y2 "" ++ ", (C)"),
                     [address + 2]))
              else if z2 = 1 then
                (if y2 = 6 then some (setDisasm st idx "OUT  (C), 0", [address + 2])
                 else
                   some (setDisasm st idx ("OUT  (C), " ++ r.getD y2 ""), [address + 2]))
              else if z2 = 2 then
                (if q2 = 0 then
                   some (setDisasm st idx ("SBC  HL, " ++ rp.getD p2 ""), [address + 2])
                 else
                   some (setDisasm st idx ("ADC  HL, " ++ rp.getD p2 ""), [address + 2]))
              else if z2 = 3 then none
              else if z2 = 4 then some (setDisasm st idx "NEG", [address + 2])
              else if z2 = 5 then
                -- note the source tests the OUTER y here
                (if y = 1 then some (setDisasm st idx "RETI", [])
                 else some (setDisasm st idx "RETN", []))
              else if z2 = 6 then
                -- the source assigns no next_addrs here, leaving the initial []
                some (setDisasm st idx ("IM   " ++ im.getD y2 ""), [])
              else
                let s :=
                  if y2 = 0 then "LD   I, A" else if y2 = 1 then "LD   R, A"
                  else if y2 = 2 then "LD   A, I" else if y2 = 3 then "LD   A, R"
                  else if y2 = 4 then "RRD" else if y2 = 5 then "RLD" else "NOP"
                some (setDisasm st idx s, [address + 2])
            else
              -- x2 = 2
              if z2 ≤ 3 ∧ 4 ≤ y2 then none
              else
                let st :=
                  addComment st idx
                    ("ERROR: invalid opcode ED" ++ util.hex8_intel opcode2 ++ " ")
                let st :=
                  { st with comments := lset st.comments (idx + 1) (lget "" st.comments idx) }
                let st := setType st idx type_error
                let st := setType st (idx + 1) type_error
                some (st, [address + 2])
          else none
      else if z = 6 then
        let st := setType st (idx + 1) type_operand
        some (setDisasm st idx (alu.getD y "" ++ util.hex8_intel (lget 0 st.rom (idx + 1))),
          [address + 2])
      else
        -- z = 7: restart
        some (setDisasm st idx ("RST  " ++ toString (y * 8)), [((y * 8 : Nat) : Int)])

/-- The entry loop of `rom_base.disassemble` specialised to the Z80 decoder,
    with explicit fuel; `none` models fuel exhaustion, the out-of-ROM
    `IndexError`, or a decoder crash. -/
def disassembleF (fuel : Nat) (st : RomState) (entries : List Int) (create_labels : Bool)
    (single_step : Bool) (valid_min valid_max : Int) (breakpoints : List Int) :
    Option RomState :=
  match fuel with
  | 0 => none
  | fuel + 1 =>
    match entries with
    | [] => some st
    | entry :: rest =>
      if entry ≥ valid_min ∧ entry ≤ valid_max ∧ entry ∉ breakpoints then
        if entry < st.base_address ∨ entry > st.max_address then none
        else
          match disasm_single st entry create_labels with
          | none => none
          | some (st, next_addr_list) =>
            let inner :=
              if ¬ single_step then
                disassembleF fuel st next_addr_list create_labels false valid_min valid_max
                  breakpoints
              else some st
            match inner with
            | none => none
            | some st =>
              disassembleF fuel st rest create_labels single_step valid_min valid_max
                breakpoints
      else disassembleF fuel st rest create_labels single_step valid_min valid_max breakpoints

/-- Models `rom_z80.disassemble` (lines 497-526): resolve the valid range and
    run the entry loop (the Z80 override has no `vectors` argument). -/
def disassemble (fuel : Nat) (st : RomState) (entries : List Int)
    (create_labels single_step : Bool) (valid_range : Option (Int × Int))
    (breakpoints : List Int) : Option RomState :=
  let valid_min := match valid_range with | some vr => vr.1 | none => st.base_address
  let valid_max := match valid_range with | some vr => vr.2 | none => st.max_address
  disassembleF fuel st entries create_labels single_step valid_min valid_max breakpoints

end rom_z80

section Invariants

open rom_base

/-- Local operand-support property: every OPERAND-tagged offset is positive
    and directly preceded by a byte whose tag is not UNKNOWN. -/
def operandPrevTagged (dt : List Nat) : Prop :=
  ∀ i : Nat, dt[i]? = some type_operand →
    0 < i ∧ ∃ t, dt[i - 1]? = some t ∧ t ≠ type_unknown

/-- Amended global operand-support property: every OPERAND-tagged offset `i`
    closes a run of OPERAND bytes whose supporting offset `j` carries a tag
    other than UNKNOWN and OPERAND (INSTRUCTION unless a later classification
    overwrote it). -/
def operandSupported (dt : List Nat) : Prop :=
  ∀ i : Nat, dt[i]? = some type_operand →
    ∃ j : Nat, j < i ∧
      (∀ k : Nat, j < k → k ≤ i → dt[k]? = some type_operand) ∧
      ∃ t, dt[j]? = some t ∧ t ≠ type_unknown ∧ t ≠ type_operand

/-- States reachable through the public API of an 8080 decoder: construction
    (with arbitrary inherited class-level registries), the pre-classification
    hints, single-instruction decodes (subject to the source's
    `assert (idx >= 0) and (idx <= self.rom_len)`), and complete
    `disassemble` runs. -/
inductive Reach8080 : RomState → Prop
  | init (rom : List Nat) (base : Int) (lm : List (Int × String)) (pm : List (Nat × String))
      (sl : List (Int × String)) (sp : List (Nat × String)) (xr : List (Int × List Int))
      (va vd : List Int) :
      Reach8080 (init rom base lm pm sl sp xr va vd)
  | set_data8 {st} (address : Int) (acc : Option Int) :
      Reach8080 st → Reach8080 (set_data8_intel st address acc)
  | set_data16 {st} (address : Int) (acc : Option Int) :
      Reach8080 st → Reach8080 (set_data16_le_intel st address acc)
  | set_vector {st} (address : Int) (acc : Option Int) :
      Reach8080 st → Reach8080 (set_vector16_le_intel st address acc).1
  | single {st} (address : Int) (cl : Bool) :
      st.base_address ≤ address → address - st.base_address ≤ st.rom_len →
      Reach8080 st → Reach8080 (rom_8080.disasm_single st address cl).1
  | run {st st' : RomState} (fuel : Nat) (entries : List Int) (cl ss : Bool)
      (vr : Option (Int × Int)) (bps vecs : List Int) :
      Reach8080 st →
      rom_8080.disassemble fuel st entries cl ss vr bps vecs = some st' →
      Reach8080 st'

end Invariants

section ClaimStates

open rom_base

/-- ROM for the double-run determinism analysis: `CALL 0004h; HLT; RET`. -/
def c1_rom : List Nat := [0xCD, 0x04, 0x00, 0x76, 0xC9]

/-- First 8080 decoder instance in a fresh process: empty user maps, empty
    class-level registries. -/
def c1_st1 : RomState := init c1_rom 0 [] [] rom_8080.default_labels [] [] [] []

/-- State after the first full `disassemble(entries=[0])` run. -/
def c1_run1 : RomState :=
  (rom_8080.disassemble 99 c1_st1 [0] true false none [] []).getD c1_st1

/-- Second decoder instance over the same ROM and user maps, constructed in
    the same process after the first run: `__init__` does not reset the
    class-level `xref`/`vector_addrs`/`vector_dests`, and the user maps are
    the same (now mutated) dictionary objects. -/
def c1_st2 : RomState :=
  init c1_rom 0 c1_run1.label_map c1_run1.port_map rom_8080.default_labels []
    c1_run1.xref c1_run1.vector_addrs c1_run1.vector_dests

/-- State after the second full `disassemble(entries=[0])` run. -/
def c1_run2 : RomState :=
  (rom_8080.disassemble 99 c1_st2 [0] true false none [] []).getD c1_st2

/-- One-byte 8080 ROM holding the invalid opcode 08h. -/
def c2_st8080 : RomState := init [0x08] 0 [] [] [] [] [] [] []

/-- One-byte 1802 ROM holding the reserved opcode 68h. -/
def c2_st1802 : RomState := init [0x68] 0 [] [] [] [] [] [] []

/-- One-byte 8080 ROM holding the invalid opcode D9h (an x=3 table hole). -/
def c2_w_hole : RomState := init [0xD9] 0 [] [] [] [] [] [] []

/-- One-byte 8080 ROM holding HLT (76h). -/
def c3_st : RomState := init [0x76] 0 [] [] [] [] [] [] []

/-- One-byte 8080 ROM holding PCHL (E9h). -/
def c3_w_pchl : RomState := init [0xE9] 0 [] [] [] [] [] [] []

/-- One-byte 8080 ROM holding RET (C9h). -/
def c3_w_ret : RomState := init [0xC9] 0 [] [] [] [] [] [] []

/-- Three-byte 8080 ROM holding `JMP 1234h`. -/
def c3_w_jmp : RomState := init [0xC3, 0x34, 0x12] 0 [] [] [] [] [] [] []

/-- 1802 ROM holding the conditional short branch `BZ` (32h) at 0x00FF with
    its displacement byte at 0x0100. -/
def c9_w_cond : RomState :=
  init [0x32, 0x40] 0xFF rom_1802.default_labels [] rom_1802.default_labels [] [] [] []

/-- ROM for the orphaned-operand run: `LXI B, 0000h; SHLD 0000h`.  The SHLD
    retags offsets 0-1 as DATA16L/DATA16H, stranding the OPERAND at offset 2. -/
def c4_rom : List Nat := [0x01, 0x00, 0x00, 0x22, 0x00, 0x00]

/-- Fresh 8080 decoder over `c4_rom`. -/
def c4_st : RomState := init c4_rom 0 [] [] [] [] [] [] []

/-- State after the full `disassemble(entries=[0])` run over `c4_rom`. -/
def c4_run : RomState :=
  (rom_8080.disassemble 99 c4_st [0] true false none [] []).getD c4_st

/-- A small decoded state used to witness the amended operand invariant. -/
def c4_w_st : RomState :=
  (rom_8080.disasm_single (init [0x3E, 0x00] 0 [] [] [] [] [] [] []) 0 true).1

/-- ROM for the re-decode run: `MVI A, 00h; NOP`. -/
def c5_rom : List Nat := [0x3E, 0x00, 0x00]

/-- Fresh 8080 decoder over `c5_rom`. -/
def c5_st : RomState := init c5_rom 0 [] [] [] [] [] [] []

/-- State after `disassemble(entries=[1, 0])`: offset 1 was decoded as NOP
    and then retagged OPERAND by the MVI decoded at offset 0. -/
def c5_mid : RomState :=
  (rom_8080.disassemble 99 c5_st [1, 0] true false none [] []).getD c5_st

/-- An 8080 state whose offset 0 is already tagged INSTRUCTION. -/
def c5_w8080 : RomState :=
  (rom_8080.disasm_single (init [0x00] 0 [] [] [] [] [] [] []) 0 true).1

/-- An 1802 state whose offset 0 is already tagged INSTRUCTION. -/
def c5_w1802 : RomState :=
  (rom_1802.disasm_single (init [0x00] 0 [] [] [] [] [] [] []) 0 true).1

/-- An empty decoder state for exercising `add_xref` alone. -/
def c6_st : RomState := init [] 0 [] [] [] [] [] [] []

/-- Two-byte decoder state for exercising the data hints. -/
def c7_st : RomState := init [0xAA, 0xBB] 0 [] [] [] [] [] [] []

/-- Both bytes pre-classified DATA8, so a following `set_data16` conflicts on
    both bytes. -/
def c7_conflicted : RomState := set_data8_intel (set_data8_intel c7_st 0 none) 1 none

/-- One-byte ROM loaded at base address 1, so `set_vector(0)` has only its
    high byte (address 1) inside the ROM. -/
def c8_high : RomState := init [0xAB] 1 [] [] [] [] [] [] []

/-- One-byte ROM loaded at base address 0, so `set_vector(0)` has only its
    low byte inside the ROM. -/
def c8_low : RomState := init [0xAB] 0 [] [] [] [] [] [] []

/-- 1802 decoder over `[0x30, 0x00]` loaded at 0x00FF: an unconditional short
    branch whose opcode sits on the last byte of page 0x0000 while its operand
    sits at 0x0100. -/
def c9_st : RomState :=
  init [0x30, 0x00] 0xFF rom_1802.default_labels [] rom_1802.default_labels [] [] [] []

/-- Z80 decoder over `[0xCB, 0x47]` at base 0. -/
def c10_st : RomState :=
  init [0xCB, 0x47] 0 rom_z80.default_labels [] rom_z80.default_labels [] [] [] []

/-- State after the Z80 `disassemble(entries=[0])` run over `[0xCB, 0x47]`. -/
def c10_run : RomState :=
  (rom_z80.disassemble 99 c10_st [0] true false none []).getD c10_st

end ClaimStates

end Dismantler

namespace Dismantler

theorem lset_length (l : List α) (i : Int) (v : α) : (lset l i v).length = l.length := by
  unfold lset
  split <;> simp

theorem lget_lset_self {l : List α} {i : Int} {v d : α} (h0 : 0 ≤ i)
    (hl : i.toNat < l.length) : lget d (lset l i v) i = v := by
  unfold lget lset
  rw [if_pos h0, if_pos h0, List.getD_eq_getElem?_getD]
  simp [List.getElem?_set_self', hl]

theorem lget_lset_ne {l : List α} {i j : Int} {v d : α} (h : i ≠ j) :
    lget d (lset l i v) j = lget d l j := by
  unfold lget lset
  by_cases h0 : 0 ≤ i
  · rw [if_pos h0]
    by_cases h1 : 0 ≤ j
    · rw [if_pos h1, if_pos h1, List.getD_eq_getElem?_getD, List.getD_eq_getElem?_getD,
        List.getElem?_set_ne (by omega)]
    · rw [if_neg h1, if_neg h1]
  · rw [if_neg h0]

theorem lget_eq_of_getElem? {l : List α} {i : Int} {d v : α} (h0 : 0 ≤ i)
    (h : l[i.toNat]? = some v) : lget d l i = v := by
  unfold lget
  rw [if_pos h0, List.getD_eq_getElem?_getD, h]
  rfl

namespace rom_base

@[simp] theorem rom_len_eq (st : RomState) : st.rom_len = (st.rom.length : Int) := rfl

@[simp] theorem setType_rom (st : RomState) (i : Int) (t : Nat) :
    (setType st i t).rom = st.rom := rfl

@[simp] theorem setType_base_address (st : RomState) (i : Int) (t : Nat) :
    (setType st i t).base_address = st.base_address := rfl

@[simp] theorem setType_data_type (st : RomState) (i : Int) (t : Nat) :
    (setType st i t).data_type = lset st.data_type i t := rfl

@[simp] theorem setType_comments (st : RomState) (i : Int) (t : Nat) :
    (setType st i t).comments = st.comments := rfl

@[simp] theorem setType_disassembly (st : RomState) (i : Int) (t : Nat) :
    (setType st i t).disassembly = st.disassembly := rfl

@[simp] theorem setType_label_map (st : RomState) (i : Int) (t : Nat) :
    (setType st i t).label_map = st.label_map := rfl

@[simp] theorem setType_port_map (st : RomState) (i : Int) (t : Nat) :
    (setType st i t).port_map = st.port_map := rfl

@[simp] theorem setType_special_labels (st : RomState) (i : Int) (t : Nat) :
    (setType st i t).special_labels = st.special_labels := rfl

@[simp] theorem setType_special_ports (st : RomState) (i : Int) (t : Nat) :
    (setType st i t).special_ports = st.special_ports := rfl

@[simp] theorem setType_xref (st : RomState) (i : Int) (t : Nat) :
    (setType st i t).xref = st.xref := rfl

@[simp] theorem setType_vector_addrs (st : RomState) (i : Int) (t : Nat) :
    (setType st i t).vector_addrs = st.vector_addrs := rfl

@[simp] theorem setType_vector_dests (st : RomState) (i : Int) (t : Nat) :
    (setType st i t).vector_dests = st.vector_dests := rfl

@[simp] theorem setDisasm_rom (st : RomState) (i : Int) (s : String) :
    (setDisasm st i s).rom = st.rom := rfl

@[simp] theorem setDisasm_base_address (st : RomState) (i : Int) (s : String) :
    (setDisasm st i s).base_address = st.base_address := rfl

@[simp] theorem setDisasm_data_type (st : RomState) (i : Int) (s : String) :
    (setDisasm st i s).data_type = st.data_type := rfl

@[simp] theorem setDisasm_comments (st : RomState) (i : Int) (s : String) :
    (setDisasm st i s).comments = st.comments := rfl

@[simp] theorem setDisasm_disassembly (st : RomState) (i : Int) (s : String) :
    (setDisasm st i s).disassembly = lset st.disassembly i s := rfl

@[simp] theorem setDisasm_label_map (st : RomState) (i : Int) (s : String) :
    (setDisasm st i s).label_map = st.label_map := rfl

@[simp] theorem setDisasm_xref (st : RomState) (i : Int) (s : String) :
    (setDisasm st i s).xref = st.xref := rfl

@[simp] theorem addComment_rom (st : RomState) (i : Int) (s : String) :
    (addComment st i s).rom = st.rom := rfl

@[simp] theorem addComment_base_address (st : RomState) (i : Int) (s : String) :
    (addComment st i s).base_address = st.base_address := rfl

@[simp] theorem addComment_data_type (st : RomState) (i : Int) (s : String) :
    (addComment st i s).data_type = st.data_type := rfl

@[simp] theorem addComment_comments (st : RomState) (i : Int) (s : String) :
    (addComment st i s).comments = lset st.comments i (lget "" st.comments i ++ s) := rfl

@[simp] theorem addComment_disassembly (st : RomState) (i : Int) (s : String) :
    (addComment st i s).disassembly = st.disassembly := rfl

@[simp] theorem addComment_label_map (st : RomState) (i : Int) (s : String) :
    (addComment st i s).label_map = st.label_map := rfl

@[simp] theorem addComment_xref (st : RomState) (i : Int) (s : String) :
    (addComment st i s).xref = st.xref := rfl

end rom_base

end Dismantler

open Dismantler Dismantler.rom_base

/-- C6: `add_xref(source, dest)` does not deduplicate on the source address:
    the source tests `dest not in self.xref[dest]`, so a repeated source is
    appended again (here `xref[10] = [5, 5]`), and once `dest` itself appears
    in the list every further source is dropped (here `7` is never recorded). -/
theorem c6_add_xref_dedup_broken :
    (add_xref (add_xref c6_st 5 10) 5 10).xref = [(10, [5, 5])] ∧
    (add_xref (add_xref c6_st 10 10) 7 10).xref = [(10, [10])] := by
  constructor <;> decide

/-- C7: `set_data16` never appends the conflict WARNING.  With both bytes
    pre-classified DATA8, retagging them DATA16L/DATA16H leaves both comment
    buffers empty, although `set_data8` in the analogous situation does append
    its WARNING comment. -/
theorem c7_set_data16_warning_never_appended :
    c7_conflicted.data_type = [type_data8, type_data8] ∧
    (set_data16_le_intel c7_conflicted 0 none).data_type = [type_data16L, type_data16H] ∧
    (set_data16_le_intel c7_conflicted 0 none).comments = ["", ""] ∧
    (set_data8_intel (set_data16_le_intel c7_st 0 none) 0 none).comments =
      ["WARNING: Changed type DATA16L->DATA8. ", ""] := by
  refine ⟨by decide, by decide, by decide, by decide⟩

/-- C8 counterexample: with only the high byte of the vector inside the ROM
    (`rom = [0xAB]` at base 1, `set_vector(0)`), the call tags that byte
    VECTOR16H but returns `None`, not `rom[address+1] << 8 = 0xAB00` as the
    claim states. -/
theorem c8_counterexample :
    (set_vector16_le_intel c8_high 0 none).2 = none ∧
    (set_vector16_le_intel c8_high 0 none).1.data_type = [type_vector16H] ∧
    (set_vector16_le_intel c8_high 0 none).2 ≠ some 0xAB00 := by
  refine ⟨by decide, by decide, by decide⟩

/-- C5 counterexample: over `rom = [0x3E, 0x00, 0x00]` the run
    `disassemble(entries=[1, 0, 1])` decodes offset 1 twice.  After
    `[1, 0]` offset 1 holds the decoded NOP but was retagged OPERAND by the
    MVI decoded at offset 0; the third entry then proceeds past the
    INSTRUCTION guard, returns the non-empty successor list `[2]`, and leaves
    the `Disassembling an operand` warning, so a ROM offset is not decoded at
    most once and a revisited address does not always stop the traversal. -/
theorem c5_counterexample :
    c5_mid.disassembly = ["MVI  A, 00h", "NOP", "NOP"] ∧
    c5_mid.data_type = [type_instruction, type_operand, type_instruction] ∧
    (rom_8080.disasm_single c5_mid 1 true).2 = [2] ∧
    (rom_8080.disasm_single c5_mid 1 true).2 ≠ [] ∧
    (rom_8080.disassemble 99 c5_st [1, 0, 1] true false none [] []).map (·.comments) =
      some ["", "WARNING: Disassembling an operand. ", ""] := by
  refine ⟨by decide, by decide, by decide, by decide, by decide⟩

/-- C4 counterexample: after the run over `LXI B, 0000h; SHLD 0000h` from
    entry 0, offset 2 is tagged OPERAND but no offset `j < 2` is tagged
    INSTRUCTION with OPERAND bytes strictly between `j` and 2: the SHLD
    retagged offsets 0 and 1 as DATA16L/DATA16H. -/
theorem c4_counterexample :
    c4_run.data_type =
      [type_data16L, type_data16H, type_operand, type_instruction, type_operand,
        type_operand] ∧
    (∀ j : Nat, j < 2 →
      ¬ (c4_run.data_type[j]? = some type_instruction ∧
          ∀ k : Nat, k < 3 → j < k → c4_run.data_type[k]? = some type_operand)) := by
  refine ⟨by decide, by decide⟩

/-- C2 counterexample: the 8080 invalid opcode 08h (x=0, z=0, y=1) yields the
    successor list `[address+1]`, not `[]` - the byte after the invalid opcode
    IS decoded - and the 1802 reserved opcode 68h leaves the comment
    `ERROR: Reserved Opcode ` which does not name the opcode. -/
theorem c2_counterexample :
    (rom_8080.disasm_single c2_st8080 0 true).2 = [1] ∧
    (rom_8080.disasm_single c2_st8080 0 true).2 ≠ [] ∧
    (rom_1802.disasm_single c2_st1802 0 true).1.comments = ["ERROR: Reserved Opcode "] := by
  refine ⟨by decide, by decide, by decide⟩

/-- C3 counterexample: HLT (76h) returns the successor list `[address+1]`,
    not `[]` as the claim states. -/
theorem c3_counterexample :
    (rom_8080.disasm_single c3_st 0 true).1.disassembly = ["HLT"] ∧
    (rom_8080.disasm_single c3_st 0 true).2 = [1] ∧
    (rom_8080.disasm_single c3_st 0 true).2 ≠ [] := by
  refine ⟨by decide, by decide, by decide⟩

/-- C1: the full pipeline is not deterministic across two runs in the same
    process.  The `xref` registry lives at class scope and `__init__` never
    resets it, so the second freshly-constructed decoder starts with
    `xref = {4: [0]}`; `add_xref(0, 4)` then appends 0 again (its guard tests
    `dest`, not `source`), and the two rendered listings differ in the
    cross-reference block. -/
theorem c1_pipeline_run_twice_differs :
    c1_run1.xref = [(4, [0])] ∧ c1_run2.xref = [(4, [0, 0])] ∧
    rom_8080.listing c1_run1 false ≠ rom_8080.listing c1_run2 false := by
  refine ⟨by decide, by decide, by decide⟩

/-- C10 counterexample: the Z80 run over `[0xCB, 0x47]` renders the bit-test
    as `BIT  1, A` (the bit index is the outer opcode's y field, and the y
    field of the CB prefix byte itself is 1), not `BIT 0, A` as the claim
    states. -/
theorem c10_counterexample :
    c10_run.disassembly[0]? = some "BIT  1, A" ∧
    c10_run.disassembly[0]? ≠ some "BIT 0, A" := by
  refine ⟨by decide, by decide⟩

/-- C10 (amended): over the Z80 ROM `[0xCB, 0x47]` with entries `[0]`,
    disassembly tags offset 0 INSTRUCTION and offset 1 OPERAND, and the
    rendered text is `BIT  1, A`: the bit index is taken from the outer
    opcode's y field, which for the CB prefix byte 0xCB is 1, not from the
    second byte's y2 field (0 here). -/
theorem c10_amended_bit_index_from_outer_y :
    rom_z80.disassemble 99 c10_st [0] true false none [] = some c10_run ∧
    c10_run.data_type = [type_instruction, type_operand] ∧
    c10_run.disassembly = ["BIT  1, A", ""] ∧
    (0xCB >>> 3) &&& 0x07 = 1 ∧ (0x47 >>> 3) &&& 0x07 = 0 := by
  refine ⟨by decide, by decide, by decide, by decide, by decide⟩

/-- C5 (amended): `disasm_single` returns an empty successor list and leaves
    the state unchanged whenever the address is currently tagged INSTRUCTION
    (8080 and 1802 decoders).  An offset whose tag survives is therefore
    decoded at most once; the counterexample shows that an offset retagged
    OPERAND between visits is decoded again. -/
theorem c5_amended_instruction_guard :
    (∀ (st : RomState) (address : Int) (cl : Bool),
        lget type_unknown st.data_type (address - st.base_address) = type_instruction →
        rom_8080.disasm_single st address cl = (st, [])) ∧
    (∀ (st : RomState) (address : Int) (cl : Bool),
        lget type_unknown st.data_type (address - st.base_address) = type_instruction →
        rom_1802.disasm_single st address cl = (st, [])) := by
  constructor
  · intro st address cl h
    unfold rom_8080.disasm_single
    rw [if_pos h]
  · intro st address cl h
    unfold rom_1802.disasm_single
    rw [if_pos h]

/-- Witness for C5 (amended) at concrete already-decoded states. -/
theorem c5_amended_witness :
    rom_8080.disasm_single c5_w8080 0 true = (c5_w8080, []) ∧
    rom_1802.disasm_single c5_w1802 0 true = (c5_w1802, []) :=
  ⟨c5_amended_instruction_guard.1 c5_w8080 0 true (by decide),
   c5_amended_instruction_guard.2 c5_w1802 0 true (by decide)⟩

/-- C8 (amended): when exactly one of the two vector bytes is inside the ROM,
    `set_vector` skips the out-of-range side; if the readable half is the low
    byte the call returns it (high half zero), but if only the high byte at
    `address+1` is readable the byte is still tagged VECTOR16H and the call
    returns `None`, not `rom[address+1] << 8`. -/
theorem c8_amended_partial_vector :
    (∀ (st : RomState) (address : Int),
        0 ≤ address - st.base_address →
        address - st.base_address < st.rom_len →
        ¬ (address - st.base_address + 1 < st.rom_len) →
        (set_vector16_le_intel st address none).2 =
          some ((lget 0 st.rom (address - st.base_address) : Nat) : Int)) ∧
    (∀ (st : RomState) (address : Int),
        st.data_type.length = st.rom.length →
        address - st.base_address < 0 →
        0 ≤ address - st.base_address + 1 →
        address - st.base_address + 1 < st.rom_len →
        (set_vector16_le_intel st address none).2 = none ∧
        lget type_unknown (set_vector16_le_intel st address none).1.data_type
          (address - st.base_address + 1) = type_vector16H) := by
  constructor
  · intro st address h0 h1 h2
    unfold set_vector16_le_intel
    simp only [rom_len_eq] at h1 h2 ⊢
    split_ifs <;> simp_all <;> omega
  · intro st address hlen h0 h1 h2
    unfold set_vector16_le_intel
    simp only [rom_len_eq] at h2 ⊢
    refine ⟨?_, ?_⟩ <;> split_ifs <;> simp_all <;>
      first
        | omega
        | rw [lget_lset_self (by omega) (by omega)]

/-- Witness for C8 (amended): apply both halves at the concrete one-byte
    states (only the low byte inside for `c8_low`, only the high byte for
    `c8_high`). -/
theorem c8_amended_witness :
    (set_vector16_le_intel c8_low 0 none).2 = some 0xAB ∧
    ((set_vector16_le_intel c8_high 0 none).2 = none ∧
      lget rom_base.type_unknown (set_vector16_le_intel c8_high 0 none).1.data_type
        (0 - c8_high.base_address + 1) = rom_base.type_vector16H) :=
  ⟨c8_amended_partial_vector.1 c8_low 0 (by decide) (by decide) (by decide),
   c8_amended_partial_vector.2 c8_high 0 (by decide) (by decide) (by decide) (by decide)⟩

/-- Reduction of the 8080 `disasm_single` at a location still tagged UNKNOWN:
    no guard fires and no warning is appended, so the result is the dispatch
    applied to the INSTRUCTION-retagged state. -/
theorem disasm8080_of_unknown (st : RomState) (address : Int) (cl : Bool)
    (hdt : lget type_unknown st.data_type (address - st.base_address) = type_unknown) :
    rom_8080.disasm_single st address cl =
      rom_8080.disasm_dispatch (setType st (address - st.base_address) type_instruction)
        address cl := by
  unfold rom_8080.disasm_single
  simp only [type_unknown] at hdt
  simp [hdt, type_unknown, type_instruction, type_operand, type_error, data_types,
    type_data8, type_data16H, type_data16L, type_vector16H, type_vector16L]

/-- Reduction of the 1802 `disasm_single` at a location still tagged UNKNOWN. -/
theorem disasm1802_of_unknown (st : RomState) (address : Int) (cl : Bool)
    (hdt : lget type_unknown st.data_type (address - st.base_address) = type_unknown) :
    rom_1802.disasm_single st address cl =
      rom_1802.disasm_dispatch (setType st (address - st.base_address) type_instruction)
        address cl := by
  unfold rom_1802.disasm_single
  simp only [type_unknown] at hdt
  simp [hdt, type_unknown, type_instruction, type_operand, type_error, data_types,
    type_data8, type_data16H, type_data16L, type_vector16H, type_vector16L]

/-- C2 (amended): on an invalid opcode at an UNKNOWN location the decoders tag
    the byte ERROR, but the details differ by family: the 8080 x=0,z=0,y≠0
    opcodes (08h..38h) get an `ERROR: invalid opcode XXh` comment and the
    successor list `[address+1]` (the next byte IS decoded); the 8080 x=3
    table holes (CBh/D9h/DDh/EDh/FDh) get the same comment with an empty
    successor list; and the 1802 reserved opcode 68h gets an empty successor
    list but the comment `ERROR: Reserved Opcode ` without the opcode value. -/
theorem c2_amended_invalid_opcodes :
    (∀ (st : RomState) (address : Int) (cl : Bool) (op : Nat),
      0 ≤ address - st.base_address →
      (address - st.base_address).toNat < st.data_type.length →
      (address - st.base_address).toNat < st.comments.length →
      lget type_unknown st.data_type (address - st.base_address) = type_unknown →
      lget 0 st.rom (address - st.base_address) = op →
      op ∈ [0x08, 0x10, 0x18, 0x20, 0x28, 0x30, 0x38] →
      (rom_8080.disasm_single st address cl).2 = [address + 1] ∧
      lget type_unknown (rom_8080.disasm_single st address cl).1.data_type
        (address - st.base_address) = type_error ∧
      lget "" (rom_8080.disasm_single st address cl).1.comments (address - st.base_address) =
        lget "" st.comments (address - st.base_address) ++
          ("ERROR: invalid opcode " ++ util.hex8_intel op ++ " ")) ∧
    (∀ (st : RomState) (address : Int) (cl : Bool) (op : Nat),
      0 ≤ address - st.base_address →
      (address - st.base_address).toNat < st.data_type.length →
      (address - st.base_address).toNat < st.comments.length →
      lget type_unknown st.data_type (address - st.base_address) = type_unknown →
      lget 0 st.rom (address - st.base_address) = op →
      op ∈ [0xCB, 0xD9, 0xDD, 0xED, 0xFD] →
      (rom_8080.disasm_single st address cl).2 = [] ∧
      lget type_unknown (rom_8080.disasm_single st address cl).1.data_type
        (address - st.base_address) = type_error ∧
      lget "" (rom_8080.disasm_single st address cl).1.comments (address - st.base_address) =
        lget "" st.comments (address - st.base_address) ++
          ("ERROR: invalid opcode " ++ util.hex8_intel op ++ " ")) ∧
    (∀ (st : RomState) (address : Int) (cl : Bool),
      0 ≤ address - st.base_address →
      (address - st.base_address).toNat < st.data_type.length →
      (address - st.base_address).toNat < st.comments.length →
      lget type_unknown st.data_type (address - st.base_address) = type_unknown →
      lget 0 st.rom (address - st.base_address) = 0x68 →
      (rom_1802.disasm_single st address cl).2 = [] ∧
      lget type_unknown (rom_1802.disasm_single st address cl).1.data_type
        (address - st.base_address) = type_error ∧
      lget "" (rom_1802.disasm_single st address cl).1.comments (address - st.base_address) =
        lget "" st.comments (address - st.base_address) ++ "ERROR: Reserved Opcode ") := by
  refine ⟨?_, ?_, ?_⟩
  · intro st address cl op h0 hdl hcl hdt hop hmem
    rw [disasm8080_of_unknown st address cl hdt]
    simp only [List.mem_cons, List.not_mem_nil, or_false] at hmem
    rcases hmem with rfl | rfl | rfl | rfl | rfl | rfl | rfl <;>
      (unfold rom_8080.disasm_dispatch
       simp only [setType_rom, setType_base_address]
       simp only [hop]
       simp +decide [type_error]
       rw [lget_lset_self h0 (by simpa [lset_length] using hdl),
         lget_lset_self h0 hcl]
       simp +decide [type_unknown])
  · intro st address cl op h0 hdl hcl hdt hop hmem
    rw [disasm8080_of_unknown st address cl hdt]
    simp only [List.mem_cons, List.not_mem_nil, or_false] at hmem
    rcases hmem with rfl | rfl | rfl | rfl | rfl <;>
      (unfold rom_8080.disasm_dispatch
       simp only [setType_rom, setType_base_address]
       simp only [hop]
       simp +decide [type_error]
       rw [lget_lset_self h0 (by simpa [lset_length] using hdl),
         lget_lset_self h0 hcl]
       simp +decide [type_unknown])
  · intro st address cl h0 hdl hcl hdt hop
    rw [disasm1802_of_unknown st address cl hdt]
    unfold rom_1802.disasm_dispatch
    simp only [setType_rom, setType_base_address]
    simp only [hop]
    simp +decide [type_error]
    rw [lget_lset_self h0 (by simpa [lset_length] using hdl),
      lget_lset_self h0 hcl]
    simp +decide [type_unknown]

/-- Witness for C2 (amended) at the one-byte ROMs 08h, D9h (8080) and 68h
    (1802). -/
theorem c2_amended_witness :
    ((rom_8080.disasm_single c2_st8080 0 true).2 = [0 + 1] ∧
      lget rom_base.type_unknown (rom_8080.disasm_single c2_st8080 0 true).1.data_type
        (0 - c2_st8080.base_address) = rom_base.type_error ∧
      lget "" (rom_8080.disasm_single c2_st8080 0 true).1.comments (0 - c2_st8080.base_address) =
        lget "" c2_st8080.comments (0 - c2_st8080.base_address) ++
          ("ERROR: invalid opcode " ++ util.hex8_intel 0x08 ++ " ")) ∧
    ((rom_8080.disasm_single c2_w_hole 0 true).2 = [] ∧
      lget rom_base.type_unknown (rom_8080.disasm_single c2_w_hole 0 true).1.data_type
        (0 - c2_w_hole.base_address) = rom_base.type_error ∧
      lget "" (rom_8080.disasm_single c2_w_hole 0 true).1.comments (0 - c2_w_hole.base_address) =
        lget "" c2_w_hole.comments (0 - c2_w_hole.base_address) ++
          ("ERROR: invalid opcode " ++ util.hex8_intel 0xD9 ++ " ")) ∧
    ((rom_1802.disasm_single c2_st1802 0 true).2 = [] ∧
      lget rom_base.type_unknown (rom_1802.disasm_single c2_st1802 0 true).1.data_type
        (0 - c2_st1802.base_address) = rom_base.type_error ∧
      lget "" (rom_1802.disasm_single c2_st1802 0 true).1.comments (0 - c2_st1802.base_address) =
        lget "" c2_st1802.comments (0 - c2_st1802.base_address) ++ "ERROR: Reserved Opcode ") :=
  ⟨c2_amended_invalid_opcodes.1 c2_st8080 0 true 0x08 (by decide) (by decide) (by decide)
      (by decide) (by decide) (by decide),
   c2_amended_invalid_opcodes.2.1 c2_w_hole 0 true 0xD9 (by decide) (by decide) (by decide)
      (by decide) (by decide) (by decide),
   c2_amended_invalid_opcodes.2.2 c2_st1802 0 true (by decide) (by decide) (by decide)
      (by decide) (by decide)⟩

/-- C3 (amended): for the 8080 unconditional control transfers decoded at an
    UNKNOWN location, the successor list is `[]` for PCHL and RET (and for
    the x=3 illegal opcodes), `[address+1]` for HLT (treated as fall-through),
    and exactly `[target]` for JMP, where `target` is the little-endian
    16-bit operand `rom[idx+1] | rom[idx+2] << 8`. -/
theorem c3_amended_unconditional_successors :
    (∀ (st : RomState) (address : Int) (cl : Bool),
      lget type_unknown st.data_type (address - st.base_address) = type_unknown →
      lget 0 st.rom (address - st.base_address) = 0xE9 →
      (rom_8080.disasm_single st address cl).2 = []) ∧
    (∀ (st : RomState) (address : Int) (cl : Bool),
      lget type_unknown st.data_type (address - st.base_address) = type_unknown →
      lget 0 st.rom (address - st.base_address) = 0xC9 →
      (rom_8080.disasm_single st address cl).2 = []) ∧
    (∀ (st : RomState) (address : Int) (cl : Bool) (op : Nat),
      lget type_unknown st.data_type (address - st.base_address) = type_unknown →
      lget 0 st.rom (address - st.base_address) = op →
      op ∈ [0xCB, 0xD9, 0xDD, 0xED, 0xFD] →
      (rom_8080.disasm_single st address cl).2 = []) ∧
    (∀ (st : RomState) (address : Int) (cl : Bool),
      lget type_unknown st.data_type (address - st.base_address) = type_unknown →
      lget 0 st.rom (address - st.base_address) = 0x76 →
      (rom_8080.disasm_single st address cl).2 = [address + 1]) ∧
    (∀ (st : RomState) (address : Int) (cl : Bool),
      (address - st.base_address).toNat + 2 < st.rom.length →
      lget type_unknown st.data_type (address - st.base_address) = type_unknown →
      lget 0 st.rom (address - st.base_address) = 0xC3 →
      (rom_8080.disasm_single st address cl).2 =
        [((Nat.lor (lget 0 st.rom (address - st.base_address + 1))
            ((lget 0 st.rom (address - st.base_address + 2)) <<< 8) : Nat) : Int)]) := by
  refine ⟨?_, ?_, ?_, ?_, ?_⟩
  · intro st address cl hdt hop
    rw [disasm8080_of_unknown st address cl hdt]
    unfold rom_8080.disasm_dispatch
    simp only [setType_rom, setType_base_address]
    simp only [hop]
    simp +decide []
  · intro st address cl hdt hop
    rw [disasm8080_of_unknown st address cl hdt]
    unfold rom_8080.disasm_dispatch
    simp only [setType_rom, setType_base_address]
    simp only [hop]
    simp +decide []
  · intro st address cl op hdt hop hmem
    rw [disasm8080_of_unknown st address cl hdt]
    simp only [List.mem_cons, List.not_mem_nil, or_false] at hmem
    rcases hmem with rfl | rfl | rfl | rfl | rfl <;>
      (unfold rom_8080.disasm_dispatch
       simp only [setType_rom, setType_base_address]
       simp only [hop]
       simp +decide [])
  · intro st address cl hdt hop
    rw [disasm8080_of_unknown st address cl hdt]
    unfold rom_8080.disasm_dispatch
    simp only [setType_rom, setType_base_address]
    simp only [hop]
    simp +decide []
  · intro st address cl hlen hdt hop
    rw [disasm8080_of_unknown st address cl hdt]
    unfold rom_8080.disasm_dispatch
    simp only [setType_rom, setType_base_address]
    simp only [hop]
    simp +decide []

/-- Witness for C3 (amended) at concrete one- and three-byte ROMs. -/
theorem c3_amended_witness :
    (rom_8080.disasm_single c3_w_pchl 0 true).2 = [] ∧
    (rom_8080.disasm_single c3_w_ret 0 true).2 = [] ∧
    (rom_8080.disasm_single c2_w_hole 0 false).2 = [] ∧
    (rom_8080.disasm_single c3_st 0 true).2 = [0 + 1] ∧
    (rom_8080.disasm_single c3_w_jmp 0 true).2 =
      [((Nat.lor (lget 0 c3_w_jmp.rom (0 - c3_w_jmp.base_address + 1))
          ((lget 0 c3_w_jmp.rom (0 - c3_w_jmp.base_address + 2)) <<< 8) : Nat) : Int)] :=
  ⟨c3_amended_unconditional_successors.1 c3_w_pchl 0 true (by decide) (by decide),
   c3_amended_unconditional_successors.2.1 c3_w_ret 0 true (by decide) (by decide),
   c3_amended_unconditional_successors.2.2.1 c2_w_hole 0 false 0xD9 (by decide) (by decide)
     (by decide),
   c3_amended_unconditional_successors.2.2.2.1 c3_st 0 true (by decide) (by decide),
   c3_amended_unconditional_successors.2.2.2.2 c3_w_jmp 0 true (by decide) (by decide)
     (by decide)⟩

/-- C9: for every 1802 conditional short branch (I=3, N∉{0,8}) decoded at an
    UNKNOWN location the branch target is `((address+1) & 0xFF00) | rom[idx+1]`
    - the page byte comes from the address of the operand, not the opcode -
    and concretely, for ROM `[0x30, 0x00]` loaded at 0x00FF the unconditional
    branch at 0x00FF crosses the page: `disasm_single` returns `[0x0100]` and
    creates the label `J_0100`. -/
theorem c9_short_branch_target :
    (∀ (st : RomState) (address : Int) (cl : Bool) (op : Nat),
      lget type_unknown st.data_type (address - st.base_address) = type_unknown →
      lget 0 st.rom (address - st.base_address) = op →
      (op >>> 4) &&& 0x0F = 3 →
      op &&& 0x0F ≠ 0 →
      op &&& 0x0F ≠ 8 →
      (rom_1802.disasm_single st address cl).2 =
        [address + 2,
          Int.lor (Int.land (address + 1) 0xFF00)
            ((lget 0 st.rom (address - st.base_address + 1) : Nat) : Int)]) ∧
    ((rom_1802.disasm_single c9_st 0xFF true).2 = [0x0100] ∧
      alookup (rom_1802.disasm_single c9_st 0xFF true).1.label_map 0x0100 = some "J_0100" ∧
      (rom_1802.disasm_single c9_st 0xFF true).1.data_type =
        [type_instruction, type_operand]) := by
  constructor
  · intro st address cl op hdt hop hI hN0 hN8
    rw [disasm1802_of_unknown st address cl hdt]
    unfold rom_1802.disasm_dispatch
    simp only [setType_rom, setType_base_address]
    simp only [hop, hI]
    simp +decide [hN0, hN8]
  · refine ⟨by decide, by decide, by decide⟩

/-- Witness for C9: the conditional short branch `BZ 40h` at 0x00FF has its
    operand at 0x0100, so the decoded target is `0x0100 | 0x40 = 0x0140`. -/
theorem c9_short_branch_witness :
    (rom_1802.disasm_single c9_w_cond 0xFF true).2 =
      [0xFF + 2,
        Int.lor (Int.land (0xFF + 1) 0xFF00)
          ((lget 0 c9_w_cond.rom (0xFF - c9_w_cond.base_address + 1) : Nat) : Int)] :=
  c9_short_branch_target.1 c9_w_cond 0xFF true 0x32 (by decide) (by decide) (by decide)
    (by decide) (by decide)

theorem opInv_replicate (n : Nat) :
    operandPrevTagged (List.replicate n type_unknown) := by
  intro i hi
  rw [List.getElem?_replicate] at hi
  split at hi
  · simp at hi
    exact absurd hi.symm (by decide)
  · simp at hi

theorem opInv_lset_safe {dt : List Nat} {v : Nat} (hv1 : v ≠ type_operand)
    (hv2 : v ≠ type_unknown) (i : Int) (h : operandPrevTagged dt) :
    operandPrevTagged (lset dt i v) := by
  unfold lset
  split
  case isFalse => exact h
  case isTrue h0 =>
    intro j hj
    by_cases hji : j = i.toNat
    · subst hji
      rw [List.getElem?_set_self'] at hj
      simp [Option.map_eq_some'] at hj
      exact absurd hj.2 hv1
    · rw [List.getElem?_set_ne (by omega)] at hj
      obtain ⟨hpos, t, ht, htu⟩ := h j hj
      refine ⟨hpos, ?_⟩
      by_cases hpi : j - 1 = i.toNat
      · have hlen : i.toNat < dt.length := by
          obtain ⟨hjl, -⟩ := List.getElem?_eq_some_iff.mp hj
          omega
        refine ⟨v, ?_, hv2⟩
        rw [hpi, List.getElem?_set_self']
        simp [List.getElem?_eq_getElem hlen]
      · exact ⟨t, by rw [List.getElem?_set_ne (by omega)]; exact ht, htu⟩

theorem opInv_setRaw_safe {dt : List Nat} {v : Nat} (hv1 : v ≠ type_operand)
    (hv2 : v ≠ type_unknown) (n : Nat) (h : operandPrevTagged dt) :
    operandPrevTagged (dt.set n v) := by
  have h0 : (0 : Int) ≤ (n : Int) := by omega
  have := opInv_lset_safe hv1 hv2 (n : Int) h
  unfold lset at this
  rw [if_pos h0] at this
  simpa using this

theorem opInv_set_operand {dt : List Nat} (p : Nat) (hp : 0 < p)
    (hprev : ∀ t, dt[p - 1]? = some t → t ≠ type_unknown)
    (h : operandPrevTagged dt) : operandPrevTagged (dt.set p type_operand) := by
  intro j hj
  by_cases hjp : j = p
  · subst hjp
    have hlen : j < dt.length := by
      obtain ⟨hjl, -⟩ := List.getElem?_eq_some_iff.mp hj
      rwa [List.length_set] at hjl
    refine ⟨hp, ?_⟩
    obtain ⟨t, ht⟩ : ∃ t, dt[j - 1]? = some t :=
      ⟨dt[j - 1], List.getElem?_eq_getElem (by omega)⟩
    refine ⟨t, ?_, hprev t ht⟩
    rw [List.getElem?_set_ne (by omega)]
    exact ht
  · rw [List.getElem?_set_ne (by omega)] at hj
    obtain ⟨hpos, t, ht, htu⟩ := h j hj
    refine ⟨hpos, ?_⟩
    by_cases hpi : j - 1 = p
    · have hlen : p < dt.length := by
        obtain ⟨hjl, -⟩ := List.getElem?_eq_some_iff.mp hj
        omega
      refine ⟨type_operand, ?_, by decide⟩
      rw [hpi, List.getElem?_set_self']
      simp [List.getElem?_eq_getElem hlen]
    · exact ⟨t, by rw [List.getElem?_set_ne (by omega)]; exact ht, htu⟩

theorem opInv_mark1 (dt : List Nat) (i : Int) (h0 : 0 ≤ i)
    (hInv : operandPrevTagged dt)
    (hnb : ∀ t, dt[i.toNat]? = some t → t ≠ type_unknown) :
    operandPrevTagged (lset dt (i + 1) type_operand) := by
  unfold lset
  rw [if_pos (by omega)]
  have htn : (i + 1).toNat = i.toNat + 1 := by omega
  rw [htn]
  exact opInv_set_operand (i.toNat + 1) (by omega) (by simpa using hnb) hInv

theorem opInv_mark2 (dt : List Nat) (i : Int) (h0 : 0 ≤ i)
    (hInv : operandPrevTagged dt)
    (hnb : ∀ t, dt[i.toNat]? = some t → t ≠ type_unknown) :
    operandPrevTagged (lset (lset dt (i + 1) type_operand) (i + 2) type_operand) := by
  have h1 := opInv_mark1 dt i h0 hInv hnb
  unfold lset at h1 ⊢
  rw [if_pos (by omega)] at h1 ⊢
  rw [if_pos (by omega)]
  have htn1 : (i + 1).toNat = i.toNat + 1 := by omega
  have htn2 : (i + 2).toNat = i.toNat + 2 := by omega
  rw [htn1] at h1
  rw [htn1, htn2]
  refine opInv_set_operand (i.toNat + 2) (by omega) ?_ h1
  intro t ht
  rw [show i.toNat + 2 - 1 = i.toNat + 1 from rfl] at ht
  rw [List.getElem?_set_self'] at ht
  simp [Option.map_eq_some'] at ht
  rw [← ht.2]
  decide

theorem lookup_a16_fst_data_type (st : RomState) (a : Int) (c : Bool) (pfx : String) :
    (lookup_a16_intel st a c pfx).1.data_type = st.data_type := by
  unfold lookup_a16_intel
  split
  · rfl
  · split <;> rfl

theorem lookup_port8_fst_data_type (st : RomState) (p : Nat) (c : Bool) (pfx : String) :
    (lookup_port8_intel st p c pfx).1.data_type = st.data_type := by
  unfold lookup_port8_intel
  split
  · rfl
  · split <;> rfl

theorem add_xref_data_type (st : RomState) (s d : Int) :
    (add_xref st s d).data_type = st.data_type := by
  unfold add_xref
  split
  · split <;> rfl
  · rfl

theorem opInv_set_data8_state (st : RomState) (a : Int) (acc : Option Int)
    (h : operandPrevTagged st.data_type) :
    operandPrevTagged (set_data8_intel st a acc).data_type := by
  unfold set_data8_intel
  dsimp only
  split_ifs <;>
    (try simp only [setType_data_type, addComment_data_type]) <;>
    first
      | exact opInv_lset_safe (by decide) (by decide) _ h
      | exact h

theorem opInv_set_data16_state (st : RomState) (a : Int) (acc : Option Int)
    (h : operandPrevTagged st.data_type) :
    operandPrevTagged (set_data16_le_intel st a acc).data_type := by
  unfold set_data16_le_intel
  dsimp only
  split_ifs <;>
    (try simp only [setType_data_type, addComment_data_type]) <;>
    first
      | exact h
      | exact opInv_lset_safe (by decide) (by decide) _ h
      | exact opInv_lset_safe (by decide) (by decide) _
          (opInv_lset_safe (by decide) (by decide) _ h)

theorem opInv_set_vector_state (st : RomState) (a : Int) (acc : Option Int)
    (h : operandPrevTagged st.data_type) :
    operandPrevTagged (set_vector16_le_intel st a acc).1.data_type := by
  unfold set_vector16_le_intel
  dsimp only
  split_ifs <;> (try split) <;> (try split_ifs) <;>
    (try simp only [setType_data_type]) <;>
    first
      | exact h
      | exact opInv_lset_safe (by decide) (by decide) _ h
      | exact opInv_lset_safe (by decide) (by decide) _
          (opInv_lset_safe (by decide) (by decide) _ h)

theorem opInv_ite {c : Prop} [Decidable c] {a b : List Nat}
    (ha : operandPrevTagged a) (hb : operandPrevTagged b) :
    operandPrevTagged (if c then a else b) := by
  split <;> assumption

set_option maxHeartbeats 4000000 in
theorem opInv_dispatch8080 (st : RomState) (address : Int) (cl : Bool)
    (h0 : 0 ≤ address - st.base_address)
    (hInv : operandPrevTagged st.data_type)
    (hnb : ∀ t, st.data_type[(address - st.base_address).toNat]? = some t →
      t ≠ type_unknown) :
    operandPrevTagged (rom_8080.disasm_dispatch st address cl).1.data_type := by
  unfold rom_8080.disasm_dispatch
  dsimp only
  simp only [apply_ite (Prod.fst : RomState × List Int → RomState),
    apply_ite RomState.data_type, setType_data_type, setDisasm_data_type,
    addComment_data_type, lookup_a16_fst_data_type, lookup_port8_fst_data_type,
    add_xref_data_type]
  repeat'
    first
      | exact hInv
      | exact opInv_lset_safe (by decide) (by decide) _ hInv
      | exact opInv_setRaw_safe (by decide) (by decide) _ hInv
      | exact opInv_mark1 st.data_type (address - st.base_address) h0 hInv hnb
      | exact opInv_mark2 st.data_type (address - st.base_address) h0 hInv hnb
      | (apply opInv_set_data8_state
         simp only [setType_data_type, setDisasm_data_type, lookup_a16_fst_data_type]
         exact opInv_mark2 st.data_type (address - st.base_address) h0 hInv hnb)
      | (apply opInv_set_data16_state
         simp only [setType_data_type, setDisasm_data_type, lookup_a16_fst_data_type]
         exact opInv_mark2 st.data_type (address - st.base_address) h0 hInv hnb)
      | apply opInv_ite

theorem opInv_disasm_single (st : RomState) (address : Int) (cl : Bool)
    (h0 : 0 ≤ address - st.base_address)
    (hInv : operandPrevTagged st.data_type) :
    operandPrevTagged (rom_8080.disasm_single st address cl).1.data_type := by
  unfold rom_8080.disasm_single
  dsimp only
  split
  · exact hInv
  · apply opInv_dispatch8080
    · simp only [setType_base_address, addComment_base_address,
        apply_ite RomState.base_address, ite_self]
      exact h0
    · simp only [setType_data_type, addComment_data_type,
        apply_ite RomState.data_type, ite_self]
      exact opInv_lset_safe (by decide) (by decide) _ hInv
    · intro t ht
      simp only [setType_data_type, addComment_data_type, setType_base_address,
        addComment_base_address, apply_ite RomState.data_type,
        apply_ite RomState.base_address, ite_self] at ht
      unfold lset at ht
      rw [if_pos h0] at ht
      have hlen : (address - st.base_address).toNat < st.data_type.length := by
        by_contra hc
        rw [List.getElem?_eq_none (by rw [List.length_set]; omega)] at ht
        exact Option.noConfusion ht
      rw [List.getElem?_set_self', List.getElem?_eq_getElem hlen] at ht
      simp at ht
      rw [← ht]
      decide

theorem opInv_disassembleF (fuel : Nat) :
    ∀ (st : RomState) (entries : List Int) (cl ss : Bool) (vmin vmax : Int)
      (bps : List Int) (st2 : RomState),
      operandPrevTagged st.data_type →
      rom_8080.disassembleF fuel st entries cl ss vmin vmax bps = some st2 →
      operandPrevTagged st2.data_type := by
  induction fuel with
  | zero =>
    intro st entries cl ss vmin vmax bps st2 hInv h
    exact Option.noConfusion h
  | succ fuel ih =>
    intro st entries cl ss vmin vmax bps st2 hInv h
    match entries with
    | [] =>
      rw [rom_8080.disassembleF] at h
      exact (Option.some.inj h) ▸ hInv
    | entry :: rest =>
      rw [rom_8080.disassembleF] at h
      split at h
      case isTrue hv =>
        split at h
        case isTrue hw => exact Option.noConfusion h
        case isFalse hw =>
          dsimp only at h
          have hInv1 : operandPrevTagged (rom_8080.disasm_single st entry cl).1.data_type := by
            apply opInv_disasm_single st entry cl ?_ hInv
            push_neg at hw
            omega
          cases ss with
          | true =>
            rw [if_neg (by decide)] at h
            exact ih _ rest cl true vmin vmax bps st2 hInv1 h
          | false =>
            rw [if_pos (by decide)] at h
            split at h
            case h_1 => exact Option.noConfusion h
            case h_2 mid hmid =>
              exact ih mid rest cl false vmin vmax bps st2
                (ih _ _ cl false vmin vmax bps mid hInv1 hmid) h
      case isFalse hv =>
        exact ih st rest cl ss vmin vmax bps st2 hInv h

theorem opInv_vecfoldl (cl : Bool) (vectors : List Int) :
    ∀ (a : Option (RomState × List (Option Int))),
      (∀ s vp, a = some (s, vp) → operandPrevTagged s.data_type) →
      ∀ st2 vp2,
        vectors.foldl
          (fun acc vector =>
            match acc with
            | none => none
            | some (st, vecptrs) =>
              let vres := set_vector16_le_intel st vector none
              let st := vres.1
              let ptr := vres.2
              if cl then
                match ptr with
                | some pv => some ((lookup_a16_intel st pv true "V_").1, vecptrs ++ [some pv])
                | none => none
              else some (st, vecptrs ++ [ptr])) a = some (st2, vp2) →
        operandPrevTagged st2.data_type := by
  induction vectors with
  | nil =>
    intro a ha st2 vp2 h
    rw [List.foldl_nil] at h
    exact ha st2 vp2 h
  | cons v rest ih =>
    intro a ha st2 vp2 h
    rw [List.foldl_cons] at h
    refine ih _ ?_ st2 vp2 h
    intro s vp hsome
    match a, ha with
    | none, _ => exact Option.noConfusion hsome
    | some (st0, vp0), ha =>
      have h0 : operandPrevTagged st0.data_type := ha st0 vp0 rfl
      dsimp only at hsome
      split at hsome
      case isTrue =>
        split at hsome
        case h_1 pv hpv =>
          simp only [Option.some.injEq, Prod.mk.injEq] at hsome
          rw [← hsome.1, lookup_a16_fst_data_type]
          exact opInv_set_vector_state st0 v none h0
        case h_2 => exact Option.noConfusion hsome
      case isFalse =>
        simp only [Option.some.injEq, Prod.mk.injEq] at hsome
        rw [← hsome.1]
        exact opInv_set_vector_state st0 v none h0

theorem opInv_disassemble (fuel : Nat) (st : RomState) (entries : List Int)
    (cl ss : Bool) (vr : Option (Int × Int)) (bps vecs : List Int) (st2 : RomState)
    (hInv : operandPrevTagged st.data_type)
    (h : rom_8080.disassemble fuel st entries cl ss vr bps vecs = some st2) :
    operandPrevTagged st2.data_type := by
  unfold rom_8080.disassemble at h
  dsimp only at h
  split at h
  case h_1 => exact Option.noConfusion h
  case h_2 stv vecptrs hvec =>
    refine opInv_disassembleF fuel stv _ cl ss _ _ bps st2 ?_ h
    exact opInv_vecfoldl cl vecs _
      (fun s vp hs => by
        rw [Option.some.injEq, Prod.mk.injEq] at hs
        rw [← hs.1]
        exact hInv) stv vecptrs hvec

theorem opInv_reach {st : RomState} (h : Reach8080 st) :
    operandPrevTagged st.data_type := by
  induction h with
  | init rom base lm pm sl sp xr va vd => exact opInv_replicate rom.length
  | set_data8 a acc _ ih => exact opInv_set_data8_state _ a acc ih
  | set_data16 a acc _ ih => exact opInv_set_data16_state _ a acc ih
  | set_vector a acc _ ih => exact opInv_set_vector_state _ a acc ih
  | single a cl h1 h2 _ ih => exact opInv_disasm_single _ a cl (by omega) ih
  | run fuel entries cl ss vr bps vecs _ heq ih =>
    exact opInv_disassemble fuel _ entries cl ss vr bps vecs _ ih heq

theorem operandSupported_of_prevTagged {dt : List Nat} (h : operandPrevTagged dt) :
    operandSupported dt := by
  intro i
  induction i using Nat.strong_induction_on with
  | _ i ih =>
    intro hi
    obtain ⟨hpos, t, ht, htu⟩ := h i hi
    by_cases hto : t = type_operand
    · subst hto
      obtain ⟨j, hj, hrun, t2, ht2⟩ := ih (i - 1) (by omega) ht
      refine ⟨j, by omega, ?_, t2, ht2⟩
      intro k hk1 hk2
      by_cases hk : k = i
      · exact hk ▸ hi
      · exact hrun k hk1 (by omega)
    · refine ⟨i - 1, by omega, ?_, t, ht, htu, hto⟩
      intro k hk1 hk2
      have hk : k = i := by omega
      exact hk ▸ hi

/-- C4 (amended): in every state an 8080 decoder can reach through its public
    API — construction, the data/vector classification hints, single decodes
    and complete `disassemble` runs — every OPERAND-tagged offset `i` closes a
    contiguous OPERAND run whose supporting offset carries a tag that is
    neither UNKNOWN nor OPERAND (INSTRUCTION unless a later classification,
    such as the one a decoded SHLD triggers, overwrote it). -/
theorem c4_amended_operand_supported (st : RomState) (h : Reach8080 st) :
    operandSupported st.data_type :=
  operandSupported_of_prevTagged (opInv_reach h)

theorem c4_amended_witness : operandSupported c4_w_st.data_type :=
  c4_amended_operand_supported c4_w_st
    (Reach8080.single 0 true (by decide) (by decide)
      (Reach8080.init [0x3E, 0x00] 0 [] [] [] [] [] [] []))
